import Mathlib

/-!
# ATen Vulkan bridge (`aten/src/ATen/native/vulkan/VulkanAten.cpp`)

A shallow embedding of the marshalling layer between CPU strided tensors and
Vulkan tensor handles, and of the three operators it forwards to the GPU
backend (`add`, `upsample_nearest2d`, `conv2d`).

Conventions of the embedding.

* A `float` is kept as its 32-bit pattern (`F32 = Nat`); the file only moves
  floats around, it never computes with them. `memset(p, 0, n)` yields the
  pattern `0`.
* An `int64_t` is an `Int`; every `+`, `-` and `*` on `int64_t` is followed by
  `wrap64`, reduction modulo `2^64` into `[-2^63, 2^63 - 1]` (what the compiled
  code does on signed overflow). The division `/` is `div64`: it truncates
  toward zero, and it stops the call when the divisor is 0 or when the quotient
  `INT64_MIN / -1` does not fit (the processor traps). The conversion of an
  `int64_t` to `int` is `to_int`, reduction modulo `2^32` into the signed range.
* Every function returns a `Res`: the backend calls made so far, in order
  (the methods of `VulkanTensor` that touch device storage and the kernels of
  `at::native::vulkan::gl`), and either a value or the error that stopped the
  call. `AT_ASSERTM`, `TORCH_CHECK`, `TORCH_INTERNAL_ASSERT` and `assert` (taken
  as compiled in) are checks that stop the call. `COUT_FLF`, the `std::cout`
  lines and `vk_print_tensor_data` only print and are left out.
* The tensor framework (`at::Tensor`, `at::empty`, `Tensor::contiguous`,
  `Tensor::data_ptr<float>`, `c10::Scalar`) and the backend class
  `VulkanTensor` are outside the file; the part of their behaviour the file
  relies on is modelled here, and the backend kernels are parameters (`Env`).
-/

namespace VulkanAten

/-! ## Scalars, enums, options -/

/-- Bit pattern of a 32-bit `float`. -/
abbrev F32 := Nat

/-- Bit pattern of a 64-bit `double`. -/
abbrev F64 := Nat

inductive DeviceType where
  | CPU
  | CUDA
  | VULKAN
  deriving DecidableEq, Repr

inductive Layout where
  | Strided
  | Sparse
  | Mkldnn
  deriving DecidableEq, Repr

inductive ScalarType where
  | Byte
  | Long
  | Half
  | Float
  | Double
  deriving DecidableEq, Repr

inductive MemoryFormat where
  | Contiguous
  | Preserve
  | ChannelsLast
  deriving DecidableEq, Repr

/-- The `c10::TensorOptions` fields the file reads. -/
structure TensorOptions where
  dtype : ScalarType
  device : DeviceType
  layout : Layout
  memory_format : Option MemoryFormat
  deriving DecidableEq, Repr

def TensorOptions.has_memory_format (o : TensorOptions) : Bool :=
  o.memory_format.isSome

/-- The checks and framework calls that can stop a function of the file. -/
inductive Error where
  /-- Check `AT_ASSERTM(vulkan_tensor.is_vulkan(), ...)` in `vtensor_from_vulkan`. -/
  | expects_vulkan_tensor
  /-- Check `TORCH_INTERNAL_ASSERT(at::impl::variable_excluded_from_dispatch())`. -/
  | variable_not_excluded
  /-- Cast `static_cast<VulkanTensorImpl*>` of a tensor of another implementation. -/
  | bad_static_cast
  /-- Check `TORCH_CHECK(!options.has_memory_format(), ...)` in `empty_vulkan`. -/
  | options_memory_format
  /-- Check `TORCH_CHECK(!optional_memory_format.has_value(), ...)` in `empty_vulkan`. -/
  | optional_memory_format
  /-- Check `AT_ASSERTM(cpu_tensor.device().type() == DeviceType::CPU, ...)`. -/
  | expects_cpu
  /-- Check `AT_ASSERTM(cpu_tensor.layout() == Layout::Strided, ...)`. -/
  | expects_strided
  /-- Check `AT_ASSERTM(cpu_tensor.scalar_type() == ScalarType::Float, ...)`. -/
  | expects_float
  /-- Check `AT_ASSERTM(cpu_tensor.dim() == 4, ...)`. -/
  | expects_dim4
  /-- Check `assert(isizes.size() == 4)`. -/
  | assert_isizes
  /-- Check `assert(wsizes.size() == 4)`. -/
  | assert_wsizes
  /-- Check `assert(wsizes[1] == C)`. -/
  | assert_channels
  /-- An accessor called on an undefined tensor. -/
  | undefined_tensor
  /-- Call of `data_ptr<float>()` or `contiguous()` on a tensor without host storage. -/
  | no_storage
  /-- Call of `data_ptr<float>()` on a tensor whose scalar type is not Float. -/
  | wrong_scalar_type
  /-- Call of `at::empty` with a negative size. -/
  | negative_size
  /-- Call of `Scalar::to<float>()` on a value that does not fit a float. -/
  | scalar_overflow
  /-- Read by `operator[]` of an `IntArrayRef` past its end. -/
  | index_out_of_range
  /-- Integer division by zero. -/
  | division_by_zero
  /-- Integer division of `INT64_MIN` by `-1`. -/
  | division_overflow
  deriving DecidableEq, Repr

/-! ## The backend class `at::native::vulkan::VulkanTensor` -/

/-- Number of elements of a shape; a negative extent counts as empty. -/
def numel (sizes : List Int) : Nat :=
  (sizes.map Int.toNat).prod

/-- The backend tensor `VTensor`: its sizes, fixed at construction, whether
device storage was allocated, and the floats it holds (`none` until written). -/
structure VTensor where
  sizes : List Int
  allocated : Bool
  data : Option (List F32)
  deriving DecidableEq, Repr

/-- Constructor `VTensor{sizes}`. -/
def VTensor.create (sizes : List Int) : VTensor :=
  { sizes := sizes, allocated := false, data := none }

/-- One call into the backend, with the arguments it received. -/
inductive BackendCall where
  | allocateStorage (t : VTensor)
  | setDataFromHost (t : VTensor) (host : List F32)
  | copyDataToHost (t : VTensor)
  | upsample_nearest2d (y x : VTensor) (ih iw oh ow n c : Int) (height_scale width_scale : F32)
  | add (output x y : VTensor) (a : F32)
  | conv2d (voutput vinput : VTensor) (weightData : List F32) (KH KW : Int)
      (biasData : List F32) (SY SX PY PX DY DX groups : Int)
  deriving DecidableEq, Repr

/-! ## Results: backend calls made, and a value or an error -/

structure Res (α : Type) where
  calls : List BackendCall
  value : Except Error α

def Res.ok {α : Type} (a : α) : Res α :=
  { calls := [], value := Except.ok a }

def Res.fail {α : Type} (e : Error) : Res α :=
  { calls := [], value := Except.error e }

def Res.andThen {α β : Type} (m : Res α) (f : α → Res β) : Res β :=
  match m.value with
  | Except.error e => { calls := m.calls, value := Except.error e }
  | Except.ok a => { calls := m.calls ++ (f a).calls, value := (f a).value }

instance : Monad Res where
  pure := Res.ok
  bind := Res.andThen

/-- Record a backend call. -/
def Res.call (c : BackendCall) : Res Unit :=
  { calls := [c], value := Except.ok () }

/-- A check that stops the function with `e` when `cond` is false
(`AT_ASSERTM`, `TORCH_CHECK`, `TORCH_INTERNAL_ASSERT`, `assert`). -/
def check (cond : Prop) [Decidable cond] (e : Error) : Res Unit :=
  if cond then Res.ok () else Res.fail e

/-- The call went through and returned `a`. -/
def Res.returns {α : Type} (r : Res α) (a : α) : Prop :=
  r.value = Except.ok a

/-- The call stopped with an error. -/
def Res.fails {α : Type} (r : Res α) : Prop :=
  ∃ e, r.value = Except.error e

/-! ## The framework's `at::Tensor` -/

/-- A tensor with host storage (`c10::TensorImpl`): the elements are read from
`storage` through `storage_offset`, `sizes` and `strides`. The storage is kept as
floats; it is only read when the scalar type is Float. -/
structure DenseImpl where
  dtype : ScalarType
  device : DeviceType
  layout : Layout
  sizes : List Nat
  strides : List Nat
  storage_offset : Nat
  storage : List F32
  deriving DecidableEq, Repr

/-- The implementation `VulkanTensorImpl = OpaqueTensorImpl<VTensorWrapperPtr>`:
no host storage, the backend tensor is held behind the handle. Its dispatch key
is `VulkanTensorId` and its device is `kVULKAN`, both constants of
`new_with_vtensor_vulkan`. -/
structure VulkanTensorImpl where
  dtype : ScalarType
  sizes : List Int
  handle : VTensor
  deriving DecidableEq, Repr

/-- An `at::Tensor`: undefined, a tensor with host storage, or a tensor made by
`new_with_vtensor_vulkan`. -/
inductive Tensor where
  | undefined
  | dense (impl : DenseImpl)
  | vulkan (impl : VulkanTensorImpl)
  deriving DecidableEq, Repr

/-- Accessor `Tensor::defined()`. -/
def Tensor.defined : Tensor → Bool
  | Tensor.undefined => false
  | _ => true

/-- Accessor `Tensor::is_vulkan()`: the key set holds `VulkanTensorId`, which only
`new_with_vtensor_vulkan` sets. -/
def Tensor.is_vulkan : Tensor → Bool
  | Tensor.vulkan _ => true
  | _ => false

/-- Accessor `tensor.device().type()`; an undefined tensor has no device. -/
def Tensor.device : Tensor → Res DeviceType
  | Tensor.undefined => Res.fail Error.undefined_tensor
  | Tensor.dense impl => Res.ok impl.device
  | Tensor.vulkan _ => Res.ok DeviceType.VULKAN

/-- Accessor `Tensor::layout()`; every tensor that is neither sparse nor mkldnn is
strided. -/
def Tensor.layout : Tensor → Res Layout
  | Tensor.undefined => Res.fail Error.undefined_tensor
  | Tensor.dense impl => Res.ok impl.layout
  | Tensor.vulkan _ => Res.ok Layout.Strided

/-- Accessor `Tensor::scalar_type()`. -/
def Tensor.scalar_type : Tensor → Res ScalarType
  | Tensor.undefined => Res.fail Error.undefined_tensor
  | Tensor.dense impl => Res.ok impl.dtype
  | Tensor.vulkan impl => Res.ok impl.dtype

/-- Accessor `Tensor::sizes()`. -/
def Tensor.sizes : Tensor → Res (List Int)
  | Tensor.undefined => Res.fail Error.undefined_tensor
  | Tensor.dense impl => Res.ok (impl.sizes.map Int.ofNat)
  | Tensor.vulkan impl => Res.ok impl.sizes

/-- Accessor `Tensor::dim()`. -/
def Tensor.dim (t : Tensor) : Res Nat := do
  let s ← t.sizes
  pure s.length

/-- Accessor `Tensor::options()`: dtype, device and layout of the tensor; it never
carries a memory format. -/
def Tensor.options (t : Tensor) : Res TensorOptions := do
  let dt ← t.scalar_type
  let dev ← t.device
  let lay ← t.layout
  pure { dtype := dt, device := dev, layout := lay, memory_format := none }

/-- Strides of a contiguous (row-major) tensor of the given sizes. -/
def contiguous_strides : List Nat → List Nat
  | [] => []
  | _ :: rest => rest.prod :: contiguous_strides rest

/-- The elements of a strided view, in row-major order of the index (for four
dimensions: N, then C, then H, then W). A read past the storage gives `0`. -/
def gather (storage : List F32) : List Nat → List Nat → Nat → List F32
  | [], _, off => [storage.getD off 0]
  | n :: sizes, strides, off =>
      (List.range n).flatMap
        (fun i => gather storage sizes strides.tail (off + i * strides.headD 0))

/-- The elements of a tensor with host storage, in row-major order. -/
def DenseImpl.elements (impl : DenseImpl) : List F32 :=
  gather impl.storage impl.sizes impl.strides impl.storage_offset

/-- The elements of a tensor in row-major order; a tensor without host storage
has none to read. -/
def Tensor.elements : Tensor → List F32
  | Tensor.dense impl => impl.elements
  | _ => []

/-- Method `Tensor::contiguous()`: a tensor with the same sizes and elements,
laid out row-major. (The framework returns the tensor itself when it is already
contiguous; the elements readable through the result are the same.) An opaque
tensor has no layout to query and the call raises. -/
def Tensor.contiguous : Tensor → Res Tensor
  | Tensor.undefined => Res.fail Error.undefined_tensor
  | Tensor.dense impl =>
      Res.ok (Tensor.dense
        { impl with
          strides := contiguous_strides impl.sizes
          storage_offset := 0
          storage := impl.elements })
  | Tensor.vulkan _ => Res.fail Error.no_storage

/-- Method `Tensor::data_ptr<float>()`: the memory from the first element of the
tensor on. It raises on a tensor without storage and on a tensor whose scalar
type is not Float. -/
def Tensor.data_ptr_float : Tensor → Res (List F32)
  | Tensor.undefined => Res.fail Error.undefined_tensor
  | Tensor.vulkan _ => Res.fail Error.no_storage
  | Tensor.dense impl =>
      if impl.dtype = ScalarType.Float then Res.ok (impl.storage.drop impl.storage_offset)
      else Res.fail Error.wrong_scalar_type

/-- The tensor after the memory behind its `data_ptr` was overwritten by `mem`. -/
def Tensor.store : Tensor → List F32 → Tensor
  | Tensor.dense impl, mem =>
      Tensor.dense { impl with storage := impl.storage.take impl.storage_offset ++ mem }
  | t, _ => t

/-- Function `at::empty(sizes, options)` for a request the CPU allocator serves: a
fresh contiguous tensor; negative sizes are rejected. The contents of the fresh
storage are unspecified, here zeros. -/
def at_empty (sizes : List Int) (options : TensorOptions) : Res Tensor :=
  if sizes.all (fun s => decide (0 ≤ s)) then
    Res.ok (Tensor.dense
      { dtype := options.dtype
        device := options.device
        layout := options.layout
        sizes := sizes.map Int.toNat
        strides := contiguous_strides (sizes.map Int.toNat)
        storage_offset := 0
        storage := List.replicate (numel sizes) 0 })
  else Res.fail Error.negative_size

/-- A `c10::Scalar`, by the outcome of `to<float>()`: a value that converts to the
float `v`, or a value whose conversion reports an overflow (such as the double
`1e300`). -/
inductive Scalar where
  | fits (v : F32)
  | overflows
  deriving DecidableEq, Repr

/-- Method `Scalar::to<float>()`. -/
def Scalar.to_float : Scalar → Res F32
  | Scalar.fits v => Res.ok v
  | Scalar.overflows => Res.fail Error.scalar_overflow

/-- Unchecked `operator[]` of an `IntArrayRef`; past the end the C++ read is
undefined, here it stops the call. -/
def index (xs : List Int) (i : Nat) : Res Int :=
  match xs.get? i with
  | some x => Res.ok x
  | none => Res.fail Error.index_out_of_range

/-! ## Environment: dispatch state and backend kernels -/

/-- What the file takes from outside: the thread-local dispatch state read by
`at::impl::variable_excluded_from_dispatch()`, the float helper
`compute_scales_value<float>` of `UpSample.h`, and the kernels of
`at::native::vulkan::gl`, each a function of its arguments giving the floats it
leaves in its output tensor (the sizes of a `VulkanTensor` are fixed at
construction). -/
structure Env where
  variable_excluded_from_dispatch : Bool
  compute_scales_value : Option F64 → Int → Int → F32
  gl_upsample_nearest2d : VTensor → VTensor → Int → Int → Int → Int → Int → Int → F32 → F32 → List F32
  gl_add : VTensor → VTensor → VTensor → F32 → List F32
  gl_conv2d : VTensor → VTensor → List F32 → Int → Int → List F32 →
    Int → Int → Int → Int → Int → Int → Int → List F32

/-- Method `VulkanTensor::allocateStorage()`. -/
def VTensor.allocateStorage (t : VTensor) : Res VTensor := do
  Res.call (BackendCall.allocateStorage t)
  pure { t with allocated := true }

/-- Method `VulkanTensor::setDataFromHost(ptr)`: uploads the `numel` floats at
`ptr`. -/
def VTensor.setDataFromHost (t : VTensor) (host : List F32) : Res VTensor := do
  Res.call (BackendCall.setDataFromHost t host)
  pure { t with allocated := true, data := some (host.take (numel t.sizes)) }

/-- Method `VulkanTensor::copyDataToHost(ptr)`: writes the floats last uploaded
over the memory at `ptr`, given as `host`; the result is that memory afterwards. -/
def VTensor.copyDataToHost (t : VTensor) (host : List F32) : Res (List F32) := do
  Res.call (BackendCall.copyDataToHost t)
  match t.data with
  | some d => pure (d ++ host.drop d.length)
  | none => pure host

/-! ## The functions of `VulkanAten.cpp` -/

/-- Conversion of an `int64_t` to `int`: reduction modulo `2^32` into
`[-2^31, 2^31 - 1]`. -/
def to_int (x : Int) : Int :=
  (x + 2147483648) % 4294967296 - 2147483648

/-- The result of an `int64_t` operation: reduction modulo `2^64` into
`[-2^63, 2^63 - 1]`. -/
def wrap64 (x : Int) : Int :=
  (x + 9223372036854775808) % 18446744073709551616 - 9223372036854775808

/-- Division `a / b` on `int64_t`: truncating; a zero divisor and `INT64_MIN / -1`
stop the call. -/
def div64 (a b : Int) : Res Int :=
  if b = 0 then Res.fail Error.division_by_zero
  else if a = -9223372036854775808 ∧ b = -1 then Res.fail Error.division_overflow
  else Res.ok (Int.tdiv a b)

/-- Source lines 41-52. -/
def new_with_vtensor_vulkan (vt : VTensor) (options : TensorOptions) : Tensor :=
  let dims := vt.sizes
  let handle := vt
  Tensor.vulkan { dtype := options.dtype, sizes := dims, handle := handle }

/-- Source lines 54-63. -/
def vtensor_from_vulkan (env : Env) (vulkan_tensor : Tensor) : Res VTensor := do
  check (vulkan_tensor.is_vulkan = true) Error.expects_vulkan_tensor
  check (env.variable_excluded_from_dispatch = true) Error.variable_not_excluded
  match vulkan_tensor with
  | Tensor.vulkan phvImpl => pure phvImpl.handle
  | _ => Res.fail Error.bad_static_cast

/-- The tensor after the backend tensor behind its handle was changed to `vt`
(the C++ code changes it in place through the `VTensor&` it holds). -/
def Tensor.with_vtensor : Tensor → VTensor → Tensor
  | Tensor.vulkan impl, vt => Tensor.vulkan { impl with handle := vt }
  | t, _ => t

/-- Source lines 82-98. -/
def empty_vulkan (sizes : List Int) (options : TensorOptions)
    (optional_memory_format : Option MemoryFormat) : Res Tensor := do
  check (options.has_memory_format = false) Error.options_memory_format
  check (optional_memory_format.isSome = false) Error.optional_memory_format
  let sizesVec := sizes
  let vt := VTensor.create sizesVec
  pure (new_with_vtensor_vulkan vt options)

/-- Source lines 100-114. -/
def vulkan_to_dense (env : Env) (vulkan_tensor : Tensor) : Res Tensor := do
  let vtensor ← vtensor_from_vulkan env vulkan_tensor
  let dims := vtensor.sizes
  let options ← vulkan_tensor.options
  let cpu_tensor ← at_empty dims
    { options with device := DeviceType.CPU, layout := Layout.Strided }
  let tensorOutputData ← cpu_tensor.data_ptr_float
  let written ← vtensor.copyDataToHost tensorOutputData
  pure (cpu_tensor.store written)

/-- Source lines 116-144. -/
def dense_to_vulkan (env : Env) (cpu_tensor : Tensor) : Res Tensor := do
  let device ← cpu_tensor.device
  check (device = DeviceType.CPU) Error.expects_cpu
  let layout ← cpu_tensor.layout
  check (layout = Layout.Strided) Error.expects_strided
  let scalar_type ← cpu_tensor.scalar_type
  check (scalar_type = ScalarType.Float) Error.expects_float
  let dim ← cpu_tensor.dim
  check (dim = 4) Error.expects_dim4
  let cpu_tensor_cont ← cpu_tensor.contiguous
  let sizes ← cpu_tensor_cont.sizes
  let dataNCHW ← cpu_tensor_cont.data_ptr_float
  let options ← cpu_tensor_cont.options
  let vulkan_tensor ← empty_vulkan sizes options none
  let vtensor ← vtensor_from_vulkan env vulkan_tensor
  let vtensor ← vtensor.setDataFromHost dataNCHW
  pure (vulkan_tensor.with_vtensor vtensor)

/-- Source lines 146-182. -/
def upsample_nearest2d_vulkan (env : Env) (input : Tensor) (outputSizes : List Int)
    (scales_h scales_w : Option F64) : Res Tensor := do
  let x ← vtensor_from_vulkan env input
  let inputSizes ← input.sizes
  let n ← index inputSizes 0
  let ic ← index inputSizes 1
  let ih ← index inputSizes 2
  let iw ← index inputSizes 3
  let oh ← index outputSizes 0
  let ow ← index outputSizes 1
  let height_scale := env.compute_scales_value scales_h ih oh
  let width_scale := env.compute_scales_value scales_w iw ow
  let options ← input.options
  let output ← empty_vulkan [n, ic, oh, ow] options none
  let y ← vtensor_from_vulkan env output
  let y ← y.allocateStorage
  Res.call (BackendCall.upsample_nearest2d y x ih iw oh ow n ic height_scale width_scale)
  let filled := env.gl_upsample_nearest2d y x ih iw oh ow n ic height_scale width_scale
  let y := { y with data := some filled }
  pure (output.with_vtensor y)

/-- Source lines 184-197. -/
def vulkan_add (env : Env) (self other : Tensor) (alpha : Scalar) : Res Tensor := do
  let x ← vtensor_from_vulkan env self
  let y ← vtensor_from_vulkan env other
  let a ← alpha.to_float
  let sizes ← self.sizes
  let output := VTensor.create sizes
  let output ← output.allocateStorage
  Res.call (BackendCall.add output x y a)
  let filled := env.gl_add output x y a
  let output := { output with data := some filled }
  let options ← self.options
  pure (new_with_vtensor_vulkan output options)

/-- The `int64_t` expression `(K - 1) * D + 1` of source lines 232-233, before it
is stored in an `int`. -/
def kernel_extent_64 (K D : Int) : Int :=
  wrap64 (wrap64 (wrap64 (K - 1) * D) + 1)

/-- Source lines 232-237: the dilated kernel extents, narrowed to `int`, and the
output sizes computed from them, the width (line 234) before the height
(line 235). -/
def conv_output_sizes (N OC H W KH KW PY PX SY SX DY DX : Int) : Res (List Int) := do
  let KWE := to_int (kernel_extent_64 KW DX)
  let KHE := to_int (kernel_extent_64 KH DY)
  let quotW ← div64 (wrap64 (wrap64 (W - KWE) + wrap64 (2 * PX))) SX
  let OW := wrap64 (quotW + 1)
  let quotH ← div64 (wrap64 (wrap64 (H - KHE) + wrap64 (2 * PY))) SY
  let OH := wrap64 (quotH + 1)
  pure [N, OC, OH, OW]

/-- Source lines 199-272. -/
def vulkan_convolution (env : Env) (input weight bias : Tensor)
    (padding stride dilation : List Int) (groups : Int) : Res Tensor := do
  let isizes ← input.sizes
  check (isizes.length = 4) Error.assert_isizes
  let wsizes ← weight.sizes
  check (wsizes.length = 4) Error.assert_wsizes
  let N ← index isizes 0
  let C ← index isizes 1
  let H ← index isizes 2
  let W ← index isizes 3
  let OC ← index wsizes 0
  let wsizes1 ← index wsizes 1
  check (wsizes1 = C) Error.assert_channels
  let KH ← index wsizes 2
  let KW ← index wsizes 3
  let PY ← index padding 0
  let PX ← index padding 1
  let SY ← index stride 0
  let SX ← index stride 1
  let DY ← index dilation 0
  let DX ← index dilation 1
  let osizes ← conv_output_sizes N OC H W KH KW PY PX SY SX DY DX
  let vinput ← vtensor_from_vulkan env input
  let voutput := VTensor.create osizes
  let voutput ← voutput.allocateStorage
  let biasData ←
    if bias.defined then bias.data_ptr_float
    else pure (List.replicate OC.toNat 0)
  let weightData ← weight.data_ptr_float
  Res.call (BackendCall.conv2d voutput vinput weightData KH KW biasData SY SX PY PX DY DX groups)
  let filled := env.gl_conv2d voutput vinput weightData KH KW biasData SY SX PY PX DY DX groups
  let voutput := { voutput with data := some filled }
  let options ← input.options
  pure (new_with_vtensor_vulkan voutput options)

/-! ## Reference definitions used by the statements -/

/-- A contiguous Float tensor on the CPU with the given sizes and floats. -/
def cpu_float (sizes : List Nat) (storage : List F32) : Tensor :=
  Tensor.dense
    { dtype := ScalarType.Float
      device := DeviceType.CPU
      layout := Layout.Strided
      sizes := sizes
      strides := contiguous_strides sizes
      storage_offset := 0
      storage := storage }

/-- The all-64-bit formula: the output sizes `((W - KWE + 2 * PX) / SX) + 1` and
`((H - KHE + 2 * PY) / SY) + 1` with the dilated kernel extents `KWE`, `KHE` kept
as `int64_t`. -/
def output_sizes_64 (N OC H W KH KW PY PX SY SX DY DX : Int) : Res (List Int) := do
  let KWE := kernel_extent_64 KW DX
  let KHE := kernel_extent_64 KH DY
  let quotW ← div64 (wrap64 (wrap64 (W - KWE) + wrap64 (2 * PX))) SX
  let quotH ← div64 (wrap64 (wrap64 (H - KHE) + wrap64 (2 * PY))) SY
  pure [N, OC, wrap64 (quotH + 1), wrap64 (quotW + 1)]

/-- The dividend of the division at source line 234 (width) or 235 (height):
`I - KE + 2 * P` on `int64_t`, with `KE` the narrowed extent of kernel size `K`
and dilation `D`. -/
def conv_dividend (I K D P : Int) : Int :=
  wrap64 (wrap64 (I - to_int (kernel_extent_64 K D)) + wrap64 (2 * P))

/-- The division `a / b` on `int64_t` is defined: `b` is not 0, and the quotient is
not `INT64_MIN / -1`. -/
def div64_defined (a b : Int) : Prop :=
  b ≠ 0 ∧ ¬ (a = -9223372036854775808 ∧ b = -1)

/-- A value an `int` can hold. -/
def fits_int (x : Int) : Prop :=
  -2147483648 ≤ x ∧ x ≤ 2147483647

/-- A value an `int64_t` can hold. -/
def fits_int64 (x : Int) : Prop :=
  -9223372036854775808 ≤ x ∧ x ≤ 9223372036854775807

/-! ## Concrete inputs -/

/-- An environment whose kernels write a single float; `excluded` is the state of
variable dispatch. -/
def sample_env (excluded : Bool) : Env :=
  { variable_excluded_from_dispatch := excluded
    compute_scales_value := fun _ _ _ => 7
    gl_upsample_nearest2d := fun _ _ _ _ _ _ _ _ _ _ => [1]
    gl_add := fun _ _ _ _ => [2]
    gl_conv2d := fun _ _ _ _ _ _ _ _ _ _ _ _ _ => [3] }

def sample_options : TensorOptions :=
  { dtype := ScalarType.Float
    device := DeviceType.CPU
    layout := Layout.Strided
    memory_format := none }

/-- A CPU Float tensor of sizes `[1, 2, 2, 2]` that is not contiguous: strides
`[8, 1, 4, 2]` from offset 1. -/
def sample_cpu : Tensor :=
  Tensor.dense
    { dtype := ScalarType.Float
      device := DeviceType.CPU
      layout := Layout.Strided
      sizes := [1, 2, 2, 2]
      strides := [8, 1, 4, 2]
      storage_offset := 1
      storage := [99, 10, 11, 12, 13, 14, 15, 16, 17, 18] }

/-- A backend tensor of sizes `[1, 3, 5, 5]`. -/
def sample_vtensor : VTensor :=
  VTensor.create [1, 3, 5, 5]

/-- A Vulkan tensor of sizes `[1, 3, 5, 5]`. -/
def sample_input : Tensor :=
  new_with_vtensor_vulkan sample_vtensor sample_options

/-- A Vulkan tensor of sizes `[2, 2]`. -/
def sample_other : Tensor :=
  new_with_vtensor_vulkan (VTensor.create [2, 2]) sample_options

/-- A Float weight of sizes `[2, 3, 3, 3]`. -/
def sample_weight : Tensor :=
  cpu_float [2, 3, 3, 3] (List.replicate 54 5)

/-- A Float weight of sizes `[2, 3, 7, 7]`: a kernel larger than the 5 x 5 input. -/
def sample_large_weight : Tensor :=
  cpu_float [2, 3, 7, 7] (List.replicate 294 5)

/-- A Double tensor of sizes `[2, 3, 3, 3]`. -/
def sample_double_weight : Tensor :=
  Tensor.dense
    { dtype := ScalarType.Double
      device := DeviceType.CPU
      layout := Layout.Strided
      sizes := [2, 3, 3, 3]
      strides := [27, 9, 3, 1]
      storage_offset := 0
      storage := [] }

/-- A Double tensor of sizes `[2]`. -/
def sample_double_bias : Tensor :=
  Tensor.dense
    { dtype := ScalarType.Double
      device := DeviceType.CPU
      layout := Layout.Strided
      sizes := [2]
      strides := [1]
      storage_offset := 0
      storage := [] }

/-- A CPU Float tensor of sizes `[1, 3, 5, 5]`. -/
def sample_cpu_input : Tensor :=
  cpu_float [1, 3, 5, 5] (List.replicate 75 0)

/-- A Float weight of sizes `[1, 3, 1, 2]`. -/
def sample_wide_weight : Tensor :=
  cpu_float [1, 3, 1, 2] (List.replicate 6 5)

@[simp] theorem Res.bind_eq {α β : Type} (m : Res α) (f : α → Res β) :
    (m >>= f) = Res.andThen m f := rfl

@[simp] theorem Res.pure_eq {α : Type} (a : α) : (pure a : Res α) = Res.ok a := rfl

@[simp] theorem Res.ok_andThen {α β : Type} (a : α) (f : α → Res β) :
    Res.andThen (Res.ok a) f = f a := by
  simp [Res.andThen, Res.ok]

@[simp] theorem Res.fail_andThen {α β : Type} (e : Error) (f : α → Res β) :
    Res.andThen (Res.fail e : Res α) f = Res.fail e := by
  simp [Res.andThen, Res.fail]

@[simp] theorem Res.ok_calls {α : Type} (a : α) : (Res.ok a : Res α).calls = [] := rfl

@[simp] theorem Res.fail_calls {α : Type} (e : Error) : (Res.fail e : Res α).calls = [] := rfl

@[simp] theorem Res.ok_value {α : Type} (a : α) : (Res.ok a : Res α).value = Except.ok a := rfl

@[simp] theorem Res.fail_value {α : Type} (e : Error) :
    (Res.fail e : Res α).value = Except.error e := rfl

@[simp] theorem Res.fails_fail {α : Type} (e : Error) : (Res.fail e : Res α).fails :=
  ⟨e, rfl⟩

@[simp] theorem Res.not_fails_ok {α : Type} (a : α) : ¬ (Res.ok a : Res α).fails := by
  rintro ⟨e, h⟩
  simp [Res.ok] at h

theorem vtensor_from_vulkan_vulkan (env : Env) (impl : VulkanTensorImpl) :
    vtensor_from_vulkan env (Tensor.vulkan impl) =
      if env.variable_excluded_from_dispatch then Res.ok impl.handle
      else Res.fail Error.variable_not_excluded := by
  cases h : env.variable_excluded_from_dispatch <;>
    simp [vtensor_from_vulkan, Tensor.is_vulkan, check, h]

theorem vtensor_from_vulkan_not_vulkan (env : Env) (t : Tensor) (h : t.is_vulkan = false) :
    vtensor_from_vulkan env t = Res.fail Error.expects_vulkan_tensor := by
  simp [vtensor_from_vulkan, check, h]

@[simp] theorem Res.call_andThen {β : Type} (c : BackendCall) (f : Unit → Res β) :
    Res.andThen (Res.call c) f = { calls := c :: (f ()).calls, value := (f ()).value } := by
  simp [Res.andThen, Res.call]

theorem Res.ok_ne_fail {α : Type} (a : α) (e : Error) : (Res.ok a : Res α) ≠ Res.fail e := by
  intro h
  have := congrArg Res.value h
  simp [Res.ok, Res.fail] at this

theorem Res.ok_inj {α : Type} {a b : α} (h : (Res.ok a : Res α) = Res.ok b) : a = b := by
  have := congrArg Res.value h
  simpa [Res.ok] using this

theorem dense_to_vulkan_dense (env : Env) (impl : DenseImpl)
    (hex : env.variable_excluded_from_dispatch = true)
    (hd : impl.device = DeviceType.CPU) (hl : impl.layout = Layout.Strided)
    (hs : impl.dtype = ScalarType.Float) (hn : impl.sizes.length = 4) :
    dense_to_vulkan env (Tensor.dense impl) =
      { calls := [BackendCall.setDataFromHost
          (VTensor.create (impl.sizes.map Int.ofNat)) impl.elements]
        value := Except.ok (Tensor.vulkan
          { dtype := ScalarType.Float
            sizes := impl.sizes.map Int.ofNat
            handle :=
              { sizes := impl.sizes.map Int.ofNat
                allocated := true
                data := some (impl.elements.take (numel (impl.sizes.map Int.ofNat))) } }) } := by
  simp [dense_to_vulkan, check, Tensor.device, Tensor.layout, Tensor.scalar_type,
    Tensor.dim, Tensor.sizes, hd, hl, hs, hn, Tensor.contiguous, Tensor.data_ptr_float,
    Tensor.options, empty_vulkan, TensorOptions.has_memory_format, new_with_vtensor_vulkan,
    vtensor_from_vulkan_vulkan, hex, VTensor.setDataFromHost, Tensor.with_vtensor,
    VTensor.create, Res.ok, Res.andThen, Res.call]

/-- Consecutive chunks of length `p` concatenate to a prefix. -/
theorem flatMap_chunks (M : List F32) (p n : Nat) :
    (List.range n).flatMap (fun i => (M.drop (i * p)).take p) = M.take (n * p) := by
  induction n with
  | zero => simp
  | succ k ih =>
    rw [List.range_succ, List.flatMap_append, ih, List.flatMap_singleton, Nat.succ_mul,
      List.take_add]

/-- Reading a contiguous layout returns the stored floats in order. -/
theorem gather_contiguous (L : List F32) (sizes : List Nat) :
    ∀ off : Nat, off + sizes.prod ≤ L.length →
      gather L sizes (contiguous_strides sizes) off = (L.drop off).take sizes.prod := by
  induction sizes with
  | nil =>
    intro off h
    have hlt : off < L.length := by simpa using h
    simp [gather, List.take_one_drop_eq_of_lt_length hlt, List.getElem?_eq_getElem hlt]
  | cons n rest ih =>
    intro off h
    have hprod : (n :: rest).prod = n * rest.prod := by simp
    rw [hprod] at h ⊢
    have step : (List.range n).flatMap
          (fun i => gather L rest (contiguous_strides rest) (off + i * rest.prod)) =
        (List.range n).flatMap (fun i => ((L.drop off).drop (i * rest.prod)).take rest.prod) := by
      apply List.flatMap_congr
      intro i hi
      have hi : i < n := List.mem_range.mp hi
      have hle : (i + 1) * rest.prod ≤ n * rest.prod := Nat.mul_le_mul_right _ hi
      rw [ih (off + i * rest.prod) (by rw [Nat.succ_mul] at hle; omega), List.drop_drop]
    simpa [gather, contiguous_strides] using step.trans (flatMap_chunks (L.drop off) rest.prod n)

theorem gather_length (L : List F32) (sizes : List Nat) :
    ∀ (strides : List Nat) (off : Nat), (gather L sizes strides off).length = sizes.prod := by
  induction sizes with
  | nil => intro strides off; simp [gather]
  | cons n rest ih =>
    intro strides off
    simp [gather, List.length_flatMap, ih, Function.comp_def]

theorem numel_ofNat (sizes : List Nat) : numel (sizes.map Int.ofNat) = sizes.prod := by
  simp [numel, Function.comp_def]

theorem toNat_ofNat_map (sizes : List Nat) : (sizes.map Int.ofNat).map Int.toNat = sizes := by
  simp [Function.comp_def]

theorem all_nonneg_ofNat (sizes : List Nat) :
    (sizes.map Int.ofNat).all (fun s => decide (0 ≤ s)) = true := by
  simp

/-- What `vulkan_to_dense` returns on the tensor `dense_to_vulkan` made from `impl`. -/
theorem vulkan_to_dense_uploaded (env : Env) (sizes : List Nat) (d : List F32)
    (hex : env.variable_excluded_from_dispatch = true) (hlen : d.length = sizes.prod) :
    vulkan_to_dense env (Tensor.vulkan
        { dtype := ScalarType.Float
          sizes := sizes.map Int.ofNat
          handle := { sizes := sizes.map Int.ofNat, allocated := true, data := some d } }) =
      { calls := [BackendCall.copyDataToHost
          { sizes := sizes.map Int.ofNat, allocated := true, data := some d }]
        value := Except.ok (Tensor.dense
          { dtype := ScalarType.Float
            device := DeviceType.CPU
            layout := Layout.Strided
            sizes := sizes
            strides := contiguous_strides sizes
            storage_offset := 0
            storage := d }) } := by
  have hall := all_nonneg_ofNat sizes
  have hdrop : List.drop d.length (List.replicate (numel (sizes.map Int.ofNat)) (0 : F32)) = [] := by
    rw [numel_ofNat, hlen]
    simp
  simp only [vulkan_to_dense, vtensor_from_vulkan_vulkan, hex, if_true, Res.bind_eq, Res.pure_eq,
    Res.ok_andThen, Tensor.options, Tensor.scalar_type, Tensor.device, Tensor.layout, at_empty,
    hall, Tensor.data_ptr_float, VTensor.copyDataToHost, Res.call_andThen, List.drop_zero,
    Tensor.store, List.take_zero, List.nil_append, hdrop, List.append_nil, toNat_ofNat_map]
  rfl

@[simp] theorem Res.mk_ok_andThen {α β : Type} (cs : List BackendCall) (a : α) (f : α → Res β) :
    Res.andThen { calls := cs, value := Except.ok a } f =
      { calls := cs ++ (f a).calls, value := (f a).value } := rfl

@[simp] theorem Res.mk_error_andThen {α β : Type} (cs : List BackendCall) (e : Error)
    (f : α → Res β) :
    Res.andThen ({ calls := cs, value := Except.error e } : Res α) f =
      { calls := cs, value := Except.error e } := rfl

theorem vtensor_from_vulkan_cases (env : Env) (t : Tensor) :
    (∃ e, vtensor_from_vulkan env t = Res.fail e) ∨ (∃ vt, vtensor_from_vulkan env t = Res.ok vt) := by
  cases t with
  | undefined => exact Or.inl ⟨_, vtensor_from_vulkan_not_vulkan env _ rfl⟩
  | dense impl => exact Or.inl ⟨_, vtensor_from_vulkan_not_vulkan env _ rfl⟩
  | vulkan impl =>
    rw [vtensor_from_vulkan_vulkan]
    cases env.variable_excluded_from_dispatch
    · exact Or.inl ⟨_, rfl⟩
    · exact Or.inr ⟨_, rfl⟩

theorem is_vulkan_eq (t : Tensor) (h : t.is_vulkan = true) : ∃ impl, t = Tensor.vulkan impl := by
  cases t with
  | undefined => simp [Tensor.is_vulkan] at h
  | dense impl => simp [Tensor.is_vulkan] at h
  | vulkan impl => exact ⟨impl, rfl⟩

theorem to_int_of_fits (x : Int) (h : fits_int x) : to_int x = x := by
  unfold fits_int at h
  unfold to_int
  omega

theorem wrap64_of_fits (x : Int) (h : fits_int64 x) : wrap64 x = x := by
  unfold fits_int64 at h
  unfold wrap64
  omega

theorem fits_int64_wrap64 (x : Int) : fits_int64 (wrap64 x) := by
  unfold fits_int64 wrap64
  omega

theorem wrap64_modEq (x : Int) : wrap64 x ≡ x [ZMOD 18446744073709551616] := by
  unfold wrap64 Int.ModEq
  omega

theorem wrap64_congr {a b : Int} (h : a ≡ b [ZMOD 18446744073709551616]) :
    wrap64 a = wrap64 b := by
  unfold Int.ModEq at h
  unfold wrap64
  omega

theorem to_int_congr {a b : Int} (h : a ≡ b [ZMOD 18446744073709551616]) :
    to_int a = to_int b := by
  unfold Int.ModEq at h
  unfold to_int
  omega

theorem kernel_extent_64_modEq (K D : Int) :
    kernel_extent_64 K D ≡ (K - 1) * D + 1 [ZMOD 18446744073709551616] := by
  unfold kernel_extent_64
  exact (wrap64_modEq _).trans
    (((wrap64_modEq _).trans ((wrap64_modEq (K - 1)).mul_right D)).add_right 1)

theorem to_int_kernel_extent_64 (K D : Int) :
    to_int (kernel_extent_64 K D) = to_int ((K - 1) * D + 1) :=
  to_int_congr (kernel_extent_64_modEq K D)

theorem kernel_extent_64_of_fits (K D : Int) (h : fits_int ((K - 1) * D + 1)) :
    kernel_extent_64 K D = (K - 1) * D + 1 := by
  have h1 : wrap64 (kernel_extent_64 K D) = wrap64 ((K - 1) * D + 1) :=
    wrap64_congr (kernel_extent_64_modEq K D)
  have h2 : wrap64 (kernel_extent_64 K D) = kernel_extent_64 K D :=
    wrap64_of_fits _ (by unfold kernel_extent_64; exact fits_int64_wrap64 _)
  have h3 : wrap64 ((K - 1) * D + 1) = (K - 1) * D + 1 :=
    wrap64_of_fits _ (by
      unfold fits_int at h
      unfold fits_int64
      omega)
  rw [← h2, h1, h3]

theorem wrap64_numerator (I KE P : Int) :
    wrap64 (wrap64 (I - KE) + wrap64 (2 * P)) = wrap64 (I + 2 * P - KE) := by
  unfold wrap64
  omega

/-- What `vulkan_convolution` does once every check and framework call goes through. -/
theorem vulkan_convolution_eval (env : Env) (iimpl : VulkanTensorImpl) (weight bias : Tensor)
    (N C H W OC KH KW PY PX SY SX DY DX groups : Int) (wdata bdata : List F32) (sz : List Int)
    (hex : env.variable_excluded_from_dispatch = true)
    (hisz : iimpl.sizes = [N, C, H, W])
    (hwsz : weight.sizes = Res.ok [OC, C, KH, KW])
    (hsz : conv_output_sizes N OC H W KH KW PY PX SY SX DY DX = Res.ok sz)
    (hw : weight.data_ptr_float = Res.ok wdata)
    (hb : (if bias.defined = true then bias.data_ptr_float
      else Res.ok (List.replicate OC.toNat 0)) = Res.ok bdata) :
    vulkan_convolution env (Tensor.vulkan iimpl) weight bias [PY, PX] [SY, SX] [DY, DX] groups =
      { calls :=
          [BackendCall.allocateStorage
            (VTensor.create sz),
           BackendCall.conv2d
            { sizes := sz
              allocated := true
              data := none }
            iimpl.handle wdata KH KW bdata SY SX PY PX DY DX groups]
        value := Except.ok (Tensor.vulkan
          { dtype := iimpl.dtype
            sizes := sz
            handle :=
              { sizes := sz
                allocated := true
                data := some (env.gl_conv2d
                  { sizes := sz
                    allocated := true
                    data := none }
                  iimpl.handle wdata KH KW bdata SY SX PY PX DY DX groups) } }) } := by
  have hin : (Tensor.vulkan iimpl).sizes = Res.ok [N, C, H, W] := by
    simp [Tensor.sizes, hisz]
  have hopt : (Tensor.vulkan iimpl).options = Res.ok
      { dtype := iimpl.dtype
        device := DeviceType.VULKAN
        layout := Layout.Strided
        memory_format := none } := by
    simp [Tensor.options, Tensor.scalar_type, Tensor.device, Tensor.layout]
  by_cases hdef : bias.defined = true
  · rw [if_pos hdef] at hb
    simp only [vulkan_convolution, Res.bind_eq, Res.pure_eq, hin, hwsz, Res.ok_andThen, check,
      index, List.length_cons, List.length_nil, List.get?_cons_zero, List.get?_cons_succ,
      Nat.reduceAdd, if_true, vtensor_from_vulkan_vulkan, hex, hsz, hb, hw, hopt, hdef,
      VTensor.allocateStorage, Res.call_andThen, Res.ok_calls, Res.ok_value,
      new_with_vtensor_vulkan, VTensor.create, Res.mk_ok_andThen, List.singleton_append]
  · rw [if_neg hdef] at hb
    have hb := Res.ok_inj hb
    subst hb
    simp only [vulkan_convolution, Res.bind_eq, Res.pure_eq, hin, hwsz, Res.ok_andThen, check,
      index, List.length_cons, List.length_nil, List.get?_cons_zero, List.get?_cons_succ,
      Nat.reduceAdd, if_true, vtensor_from_vulkan_vulkan, hex, hsz, hw, hopt, hdef, Bool.false_eq_true, if_false,
      VTensor.allocateStorage, Res.call_andThen, Res.ok_calls, Res.ok_value,
      new_with_vtensor_vulkan, VTensor.create, Res.mk_ok_andThen, List.singleton_append]

theorem vulkan_convolution_reaches_backend (env : Env) (iimpl : VulkanTensorImpl)
    (weight bias : Tensor) (N C H W OC KH KW PY PX SY SX DY DX groups : Int) (sz : List Int)
    (hex : env.variable_excluded_from_dispatch = true)
    (hisz : iimpl.sizes = [N, C, H, W])
    (hwsz : weight.sizes = Res.ok [OC, C, KH, KW])
    (hsz : conv_output_sizes N OC H W KH KW PY PX SY SX DY DX = Res.ok sz) :
    ∃ rest,
      (vulkan_convolution env (Tensor.vulkan iimpl) weight bias
        [PY, PX] [SY, SX] [DY, DX] groups).calls =
      BackendCall.allocateStorage
        (VTensor.create sz) :: rest := by
  have hin : (Tensor.vulkan iimpl).sizes = Res.ok [N, C, H, W] := by
    simp [Tensor.sizes, hisz]
  simp only [vulkan_convolution, Res.bind_eq, Res.pure_eq, hin, hwsz, Res.ok_andThen, check,
    index, List.length_cons, List.length_nil, List.get?_cons_zero, List.get?_cons_succ,
    Nat.reduceAdd, if_true, vtensor_from_vulkan_vulkan, hex, hsz,
    VTensor.allocateStorage, Res.call_andThen, Res.ok_calls, Res.ok_value,
    Res.mk_ok_andThen, List.singleton_append, List.cons.injEq, true_and, exists_eq']

theorem vulkan_convolution_size_fail (env : Env) (iimpl : VulkanTensorImpl)
    (weight bias : Tensor) (N C H W OC KH KW PY PX SY SX DY DX groups : Int) (e : Error)
    (hisz : iimpl.sizes = [N, C, H, W])
    (hwsz : weight.sizes = Res.ok [OC, C, KH, KW])
    (hsz : conv_output_sizes N OC H W KH KW PY PX SY SX DY DX = Res.fail e) :
    vulkan_convolution env (Tensor.vulkan iimpl) weight bias [PY, PX] [SY, SX] [DY, DX] groups =
      Res.fail e := by
  have hin : (Tensor.vulkan iimpl).sizes = Res.ok [N, C, H, W] := by
    simp [Tensor.sizes, hisz]
  simp only [vulkan_convolution, Res.bind_eq, Res.pure_eq, hin, hwsz, Res.ok_andThen, check,
    index, List.length_cons, List.length_nil, List.get?_cons_zero, List.get?_cons_succ,
    Nat.reduceAdd, if_true, hsz, Res.fail_andThen]

theorem tdiv_eq_fdiv_of_nonneg (x s : Int) (hx : 0 ≤ x) (hs : 1 ≤ s) :
    Int.tdiv x s = Int.fdiv x s :=
  (Int.fdiv_eq_tdiv hx (by omega)).symm

theorem bias_data_cases (bias : Tensor) (OC : Int)
    (hb : bias.defined = false ∨ ∃ bdata, bias.data_ptr_float = Res.ok bdata) :
    ∃ bdata, (if bias.defined = true then bias.data_ptr_float
      else Res.ok (List.replicate OC.toNat 0)) = Res.ok bdata := by
  rcases hb with h | ⟨bdata, h⟩
  · exact ⟨List.replicate OC.toNat 0, by simp [h]⟩
  · by_cases hdef : bias.defined = true
    · exact ⟨bdata, by simp [hdef, h]⟩
    · exact ⟨List.replicate OC.toNat 0, by simp [hdef]⟩

theorem tdiv_neg_num (x s : Int) (hx : x < 0) (hs : 1 ≤ s) :
    Int.tdiv x s ≤ 0 ∧ (-s < x → Int.tdiv x s = 0 ∧ Int.fdiv x s = -1) ∧
      (x ≤ -s → Int.tdiv x s ≤ -1) := by
  have hneg : Int.tdiv x s = -(Int.tdiv (-x) s) := by
    rw [Int.neg_tdiv, neg_neg]
  have hnn : 0 ≤ Int.tdiv (-x) s := Int.tdiv_nonneg (by omega) (by omega)
  refine ⟨by omega, ?_, ?_⟩
  · intro h
    have h0 : Int.tdiv (-x) s = 0 := Int.tdiv_eq_zero_of_lt (by omega) (by omega)
    refine ⟨by omega, ?_⟩
    rw [Int.fdiv_eq_ediv _ (by omega)]
    have := Int.ediv_emod_unique (a := x) (b := s) (r := x + s) (q := -1) (by omega)
    exact (this.mpr ⟨by ring, by omega, by omega⟩).1
  · intro h
    have h1 : 1 ≤ Int.tdiv (-x) s := by
      rw [Int.tdiv_eq_ediv (by omega) (by omega)]
      exact Int.le_ediv_of_mul_le (by omega) (by omega)
    omega

@[simp] theorem Tensor.sizes_calls (t : Tensor) : t.sizes.calls = [] := by
  cases t <;> rfl

@[simp] theorem Tensor.data_ptr_float_calls (t : Tensor) : t.data_ptr_float.calls = [] := by
  cases t with
  | undefined => rfl
  | vulkan impl => rfl
  | dense impl =>
    by_cases h : impl.dtype = ScalarType.Float <;> simp [Tensor.data_ptr_float, h]

@[simp] theorem Tensor.options_calls (t : Tensor) : t.options.calls = [] := by
  cases t <;> rfl

@[simp] theorem check_calls (cond : Prop) [Decidable cond] (e : Error) :
    (check cond e).calls = [] := by
  by_cases h : cond <;> simp [check, h]

@[simp] theorem index_calls (xs : List Int) (i : Nat) : (index xs i).calls = [] := by
  unfold index
  cases xs.get? i <;> rfl

@[simp] theorem vtensor_from_vulkan_calls (env : Env) (t : Tensor) :
    (vtensor_from_vulkan env t).calls = [] := by
  rcases vtensor_from_vulkan_cases env t with ⟨e, h⟩ | ⟨vt, h⟩ <;> simp [h]

theorem div64_cases (a b : Int) :
    (∃ q, div64 a b = Res.ok q) ∨ (∃ e, div64 a b = Res.fail e) := by
  unfold div64
  by_cases h0 : b = 0
  · exact Or.inr ⟨_, by rw [if_pos h0]⟩
  · by_cases h1 : a = -9223372036854775808 ∧ b = -1
    · exact Or.inr ⟨_, by rw [if_neg h0, if_pos h1]⟩
    · exact Or.inl ⟨_, by rw [if_neg h0, if_neg h1]⟩

@[simp] theorem div64_calls (a b : Int) : (div64 a b).calls = [] := by
  rcases div64_cases a b with ⟨q, h⟩ | ⟨e, h⟩ <;> simp [h]

theorem conv_output_sizes_cases (N OC H W KH KW PY PX SY SX DY DX : Int) :
    (∃ sz, conv_output_sizes N OC H W KH KW PY PX SY SX DY DX = Res.ok sz) ∨
    (∃ e, conv_output_sizes N OC H W KH KW PY PX SY SX DY DX = Res.fail e) := by
  unfold conv_output_sizes
  rcases div64_cases (wrap64 (wrap64 (W - to_int (kernel_extent_64 KW DX)) + wrap64 (2 * PX))) SX
    with ⟨q, h⟩ | ⟨e, h⟩
  · rcases div64_cases
      (wrap64 (wrap64 (H - to_int (kernel_extent_64 KH DY)) + wrap64 (2 * PY))) SY
      with ⟨r, h2⟩ | ⟨e, h2⟩
    · exact Or.inl ⟨[N, OC, wrap64 (r + 1), wrap64 (q + 1)], by simp [h, h2]⟩
    · exact Or.inr ⟨e, by simp [h, h2]⟩
  · exact Or.inr ⟨e, by simp [h]⟩

@[simp] theorem conv_output_sizes_calls (N OC H W KH KW PY PX SY SX DY DX : Int) :
    (conv_output_sizes N OC H W KH KW PY PX SY SX DY DX).calls = [] := by
  rcases conv_output_sizes_cases N OC H W KH KW PY PX SY SX DY DX with ⟨q, h⟩ | ⟨e, h⟩ <;>
    simp [h]

theorem div64_of_defined (a b : Int) (h : div64_defined a b) :
    div64 a b = Res.ok (Int.tdiv a b) := by
  unfold div64
  rw [if_neg h.1, if_neg h.2]

theorem div64_defined_of_pos (a b : Int) (h : 1 ≤ b) : div64_defined a b :=
  ⟨by omega, by omega⟩

theorem conv_dividend_eq (I K D P : Int) :
    conv_dividend I K D P = wrap64 (I + 2 * P - to_int ((K - 1) * D + 1)) := by
  unfold conv_dividend
  rw [to_int_kernel_extent_64, wrap64_numerator]

theorem conv_dividend_of_fits (I K D P : Int) (hK : fits_int ((K - 1) * D + 1))
    (h : fits_int64 (I + 2 * P - ((K - 1) * D + 1))) :
    conv_dividend I K D P = I + 2 * P - ((K - 1) * D + 1) := by
  rw [conv_dividend_eq, to_int_of_fits _ hK, wrap64_of_fits _ h]

/-- The output sizes once both divisions are defined. -/
theorem conv_output_sizes_eval (N OC H W KH KW PY PX SY SX DY DX : Int)
    (hW : div64_defined (conv_dividend W KW DX PX) SX)
    (hH : div64_defined (conv_dividend H KH DY PY) SY) :
    conv_output_sizes N OC H W KH KW PY PX SY SX DY DX =
      Res.ok [N, OC, wrap64 (Int.tdiv (conv_dividend H KH DY PY) SY + 1),
        wrap64 (Int.tdiv (conv_dividend W KW DX PX) SX + 1)] := by
  have h1 := div64_of_defined _ _ hW
  have h2 := div64_of_defined _ _ hH
  unfold conv_dividend at h1 h2
  simp only [conv_output_sizes, conv_dividend, Res.bind_eq, Res.pure_eq, h1, h2, Res.ok_andThen]

theorem tdiv_neg_ge (x s : Int) (hx : x < 0) (hs : 1 ≤ s) : x ≤ Int.tdiv x s := by
  have hneg : Int.tdiv x s = -(Int.tdiv (-x) s) := by
    rw [Int.neg_tdiv, neg_neg]
  have h1 : Int.tdiv (-x) s ≤ -x := by
    rw [Int.tdiv_eq_ediv (by omega) (by omega)]
    exact Int.ediv_le_self _ (by omega)
  omega

/-- The facts of claim C9 on one axis: with stride `S >= 1`, extent `KE` and the
difference `I + 2 P - KE` negative but within `int64_t`, the size computed is
`trunc((I + 2 P - KE) / S) + 1`, at most 1, equal to 1 above `-S` and at most 0
otherwise. -/
theorem oversized_axis (I K D P S : Int) (hS : 1 ≤ S) (hK : fits_int ((K - 1) * D + 1))
    (hlt : I + 2 * P < (K - 1) * D + 1)
    (h64 : -9223372036854775808 ≤ I + 2 * P - ((K - 1) * D + 1)) :
    wrap64 (Int.tdiv (conv_dividend I K D P) S + 1) =
        Int.tdiv (I + 2 * P - ((K - 1) * D + 1)) S + 1 ∧
      Int.tdiv (I + 2 * P - ((K - 1) * D + 1)) S + 1 ≤ 1 ∧
      (-S < I + 2 * P - ((K - 1) * D + 1) →
        Int.tdiv (I + 2 * P - ((K - 1) * D + 1)) S + 1 = 1 ∧
        Int.fdiv (I + 2 * P - ((K - 1) * D + 1)) S + 1 = 0) ∧
      (I + 2 * P - ((K - 1) * D + 1) ≤ -S →
        Int.tdiv (I + 2 * P - ((K - 1) * D + 1)) S + 1 ≤ 0) := by
  have hfit : fits_int64 (I + 2 * P - ((K - 1) * D + 1)) := by
    unfold fits_int64
    omega
  rw [conv_dividend_of_fits I K D P hK hfit]
  obtain ⟨h1, h2, h3⟩ := tdiv_neg_num (I + 2 * P - ((K - 1) * D + 1)) S (by omega) hS
  have h4 := tdiv_neg_ge (I + 2 * P - ((K - 1) * D + 1)) S (by omega) hS
  refine ⟨wrap64_of_fits _ (by unfold fits_int64; omega), by omega, fun h => ?_, fun h => ?_⟩
  · obtain ⟨a, b⟩ := h2 h
    omega
  · have := h3 h
    omega

/-! ## The claims -/

/-- Claim C1 (round trip). With variable dispatch excluded, for every CPU, strided,
Float, 4-dimensional tensor `t`, `dense_to_vulkan t` returns a tensor `v` and
`vulkan_to_dense v` returns a CPU strided tensor with the sizes of `t` and the
elements of `t` in row-major (NCHW) order; `copyDataToHost` gives back what
`setDataFromHost` stored. -/
theorem C1_round_trip (env : Env) (t : Tensor)
    (hex : env.variable_excluded_from_dispatch = true)
    (hd : t.device = Res.ok DeviceType.CPU) (hl : t.layout = Res.ok Layout.Strided)
    (hs : t.scalar_type = Res.ok ScalarType.Float) (hn : t.dim = Res.ok 4) :
    ∃ v r, (dense_to_vulkan env t).returns v ∧ (vulkan_to_dense env v).returns r ∧
      r.device = Res.ok DeviceType.CPU ∧ r.layout = Res.ok Layout.Strided ∧
      r.sizes = t.sizes ∧ r.elements = t.elements := by
  cases t with
  | undefined => exact absurd hd.symm (Res.ok_ne_fail _ _)
  | vulkan impl =>
    have := Res.ok_inj hd
    cases this
  | dense impl =>
    have hd := Res.ok_inj hd
    have hl := Res.ok_inj hl
    have hs := Res.ok_inj hs
    have hn : impl.sizes.length = 4 := by
      have := Res.ok_inj hn
      simpa using this
    have hE : impl.elements.length = impl.sizes.prod := by
      simp [DenseImpl.elements, gather_length]
    have htake : impl.elements.take (numel (impl.sizes.map Int.ofNat)) = impl.elements := by
      apply List.take_of_length_le
      rw [numel_ofNat, hE]
    refine ⟨Tensor.vulkan
        { dtype := ScalarType.Float
          sizes := impl.sizes.map Int.ofNat
          handle :=
            { sizes := impl.sizes.map Int.ofNat
              allocated := true
              data := some (impl.elements.take (numel (impl.sizes.map Int.ofNat))) } },
      Tensor.dense
        { dtype := ScalarType.Float
          device := DeviceType.CPU
          layout := Layout.Strided
          sizes := impl.sizes
          strides := contiguous_strides impl.sizes
          storage_offset := 0
          storage := impl.elements.take (numel (impl.sizes.map Int.ofNat)) }, ?_, ?_, ?_⟩
    · rw [dense_to_vulkan_dense env impl hex hd hl hs hn]
      rfl
    · rw [vulkan_to_dense_uploaded env impl.sizes _ hex (by rw [htake, hE])]
      rfl
    · refine ⟨rfl, rfl, rfl, ?_⟩
      show gather (impl.elements.take (numel (impl.sizes.map Int.ofNat))) impl.sizes
        (contiguous_strides impl.sizes) 0 = impl.elements
      rw [htake, gather_contiguous _ _ 0 (by rw [hE]; omega), List.drop_zero, ← hE,
        List.take_length]

/-- Witness of C1 on a non-contiguous 1 x 2 x 2 x 2 tensor. -/
theorem C1_witness :
    ∃ v r, (dense_to_vulkan (sample_env true) sample_cpu).returns v ∧
      (vulkan_to_dense (sample_env true) v).returns r ∧
      r.device = Res.ok DeviceType.CPU ∧ r.layout = Res.ok Layout.Strided ∧
      r.sizes = sample_cpu.sizes ∧ r.elements = sample_cpu.elements :=
  C1_round_trip (sample_env true) sample_cpu rfl rfl rfl rfl rfl

/-- Claim C2, amended (convolution output shape). With variable dispatch excluded,
for a Vulkan input of sizes `[N, C, H, W]`, a weight of sizes `[OC, C, KH, KW]` whose
`data_ptr<float>()` succeeds, a bias that is undefined or whose `data_ptr<float>()`
succeeds, strides at least 1, dilated kernel extents that fit an `int` and are at
most the padded input extents, and with `H + 2 PY - KHE`, `W + 2 PX - KWE` and the
two resulting sizes within `int64_t` (no 64-bit overflow), `vulkan_convolution`
returns a tensor of sizes
`[N, OC, floor((H + 2 PY - KHE) / SY) + 1, floor((W + 2 PX - KWE) / SX) + 1]`. -/
theorem C2_convolution_output_shape (env : Env) (input weight bias : Tensor)
    (N C H W OC KH KW PY PX SY SX DY DX groups : Int) (wdata : List F32)
    (hex : env.variable_excluded_from_dispatch = true)
    (hin : input.is_vulkan = true) (hisz : input.sizes = Res.ok [N, C, H, W])
    (hwsz : weight.sizes = Res.ok [OC, C, KH, KW])
    (hw : weight.data_ptr_float = Res.ok wdata)
    (hb : bias.defined = false ∨ ∃ bdata, bias.data_ptr_float = Res.ok bdata)
    (hSY : 1 ≤ SY) (hSX : 1 ≤ SX)
    (hKHE : fits_int ((KH - 1) * DY + 1)) (hKWE : fits_int ((KW - 1) * DX + 1))
    (hH : (KH - 1) * DY + 1 ≤ H + 2 * PY) (hW : (KW - 1) * DX + 1 ≤ W + 2 * PX)
    (hH64 : fits_int64 (H + 2 * PY - ((KH - 1) * DY + 1)))
    (hW64 : fits_int64 (W + 2 * PX - ((KW - 1) * DX + 1)))
    (hOH64 : fits_int64 (Int.fdiv (H + 2 * PY - ((KH - 1) * DY + 1)) SY + 1))
    (hOW64 : fits_int64 (Int.fdiv (W + 2 * PX - ((KW - 1) * DX + 1)) SX + 1)) :
    ∃ out,
      (vulkan_convolution env input weight bias [PY, PX] [SY, SX] [DY, DX] groups).returns out ∧
      out.sizes = Res.ok [N, OC,
        Int.fdiv (H + 2 * PY - ((KH - 1) * DY + 1)) SY + 1,
        Int.fdiv (W + 2 * PX - ((KW - 1) * DX + 1)) SX + 1] := by
  obtain ⟨iimpl, rfl⟩ := is_vulkan_eq input hin
  have hisz : iimpl.sizes = [N, C, H, W] := Res.ok_inj hisz
  obtain ⟨bdata, hbd⟩ := bias_data_cases bias OC hb
  have hsz := conv_output_sizes_eval N OC H W KH KW PY PX SY SX DY DX
    (div64_defined_of_pos _ SX hSX) (div64_defined_of_pos _ SY hSY)
  rw [conv_dividend_of_fits H KH DY PY hKHE hH64, conv_dividend_of_fits W KW DX PX hKWE hW64,
    tdiv_eq_fdiv_of_nonneg _ SY (by omega) hSY, tdiv_eq_fdiv_of_nonneg _ SX (by omega) hSX,
    wrap64_of_fits _ hOH64, wrap64_of_fits _ hOW64] at hsz
  rw [vulkan_convolution_eval env iimpl weight bias N C H W OC KH KW PY PX SY SX DY DX groups
    wdata bdata _ hex hisz hwsz hsz hw hbd]
  exact ⟨_, rfl, rfl⟩

/-- Counterexample to C2 as stated: on a Vulkan input of sizes `[1, 3, 5, 5]` and a
weight of sizes `[2, 3, 3, 3]`, unit stride and dilation, the call raises instead of
returning when variable dispatch is not excluded, when the weight is a Double
tensor, and when the bias is a Double tensor; and with padding `[0, 2^62]` the
64-bit arithmetic of line 234 wraps and the returned width is
`-9223372036854775805`, not `floor((5 + 2^63 - 3) / 1) + 1`. -/
theorem C2_counterexample :
    sample_input.is_vulkan = true ∧ sample_input.sizes = Res.ok [1, 3, 5, 5] ∧
    sample_weight.sizes = Res.ok [2, 3, 3, 3] ∧ sample_double_weight.sizes = Res.ok [2, 3, 3, 3] ∧
    (vulkan_convolution (sample_env false) sample_input sample_weight Tensor.undefined
      [0, 0] [1, 1] [1, 1] 1).value = Except.error Error.variable_not_excluded ∧
    (vulkan_convolution (sample_env true) sample_input sample_double_weight Tensor.undefined
      [0, 0] [1, 1] [1, 1] 1).value = Except.error Error.wrong_scalar_type ∧
    (vulkan_convolution (sample_env true) sample_input sample_weight sample_double_bias
      [0, 0] [1, 1] [1, 1] 1).value = Except.error Error.wrong_scalar_type ∧
    ((3 - 1) * 1 + 1 ≤ (5 : Int) + 2 * 4611686018427387904 ∧
      Int.fdiv (5 + 2 * 4611686018427387904 - ((3 - 1) * 1 + 1)) 1 + 1 = 9223372036854775811 ∧
      ∃ out,
        (vulkan_convolution (sample_env true) sample_input sample_weight Tensor.undefined
          [0, 4611686018427387904] [1, 1] [1, 1] 1).returns out ∧
        out.sizes = Res.ok [1, 2, 3, -9223372036854775805]) := by
  refine ⟨rfl, rfl, rfl, rfl, rfl, rfl, rfl, by decide, by decide, _, rfl, rfl⟩

/-- Witness of C2 on a 5 x 5 input and a 3 x 3 kernel. -/
theorem C2_witness :
    ∃ out,
      (vulkan_convolution (sample_env true) sample_input sample_weight Tensor.undefined
        [1, 0] [2, 1] [1, 2] 1).returns out ∧
      out.sizes = Res.ok [1, 2,
        Int.fdiv (5 + 2 * 1 - ((3 - 1) * 1 + 1)) 2 + 1,
        Int.fdiv (5 + 2 * 0 - ((3 - 1) * 2 + 1)) 1 + 1] :=
  C2_convolution_output_shape (sample_env true) sample_input sample_weight Tensor.undefined
    1 3 5 5 2 3 3 1 0 2 1 1 2 1 (List.replicate 54 5) rfl rfl rfl rfl rfl (Or.inl rfl)
    (by decide) (by decide) (by unfold fits_int; decide) (by unfold fits_int; decide)
    (by decide) (by decide) (by unfold fits_int64; decide) (by unfold fits_int64; decide)
    (by unfold fits_int64; decide) (by unfold fits_int64; decide)

/-- Claim C3 (input validation of `dense_to_vulkan`). A tensor whose device is not
CPU, or whose layout is not Strided, or whose scalar type is not Float, or whose
dimension is not 4, makes the call fail, with no backend call made; with variable
dispatch excluded, a tensor that passes the four checks gives a Vulkan-device
tensor of the same sizes. -/
theorem C3_dense_to_vulkan_validates (env : Env) (t : Tensor) :
    ((t.device ≠ Res.ok DeviceType.CPU ∨ t.layout ≠ Res.ok Layout.Strided ∨
        t.scalar_type ≠ Res.ok ScalarType.Float ∨ t.dim ≠ Res.ok 4) →
      (dense_to_vulkan env t).fails ∧ (dense_to_vulkan env t).calls = []) ∧
    (env.variable_excluded_from_dispatch = true →
      t.device = Res.ok DeviceType.CPU → t.layout = Res.ok Layout.Strided →
      t.scalar_type = Res.ok ScalarType.Float → t.dim = Res.ok 4 →
      ∃ v, (dense_to_vulkan env t).returns v ∧ v.is_vulkan = true ∧
        v.device = Res.ok DeviceType.VULKAN ∧ v.sizes = t.sizes) := by
  refine ⟨?_, ?_⟩
  · intro h
    cases t with
    | undefined => simp [dense_to_vulkan, check, Tensor.device]
    | vulkan impl => simp [dense_to_vulkan, check, Tensor.device]
    | dense impl =>
      by_cases hd : impl.device = DeviceType.CPU
      · by_cases hl : impl.layout = Layout.Strided
        · by_cases hs : impl.dtype = ScalarType.Float
          · by_cases hn : impl.sizes.length = 4
            · exfalso
              rcases h with h | h | h | h
              · exact h (by simp [Tensor.device, hd])
              · exact h (by simp [Tensor.layout, hl])
              · exact h (by simp [Tensor.scalar_type, hs])
              · exact h (by simp [Tensor.dim, Tensor.sizes, hn])
            · simp [dense_to_vulkan, check, Tensor.device, Tensor.layout, Tensor.scalar_type,
                Tensor.dim, Tensor.sizes, hd, hl, hs, hn]
          · simp [dense_to_vulkan, check, Tensor.device, Tensor.layout, Tensor.scalar_type, hd, hl, hs]
        · simp [dense_to_vulkan, check, Tensor.device, Tensor.layout, hd, hl]
      · simp [dense_to_vulkan, check, Tensor.device, hd]
  · intro hex hd hl hs hn
    cases t with
    | undefined => exact absurd hd (by simp [Tensor.device]; exact fun h => Res.ok_ne_fail _ _ h.symm)
    | vulkan impl =>
      have := Res.ok_inj hd
      cases this
    | dense impl =>
      have hd := Res.ok_inj hd
      have hl := Res.ok_inj hl
      have hs := Res.ok_inj hs
      have hn : impl.sizes.length = 4 := by
        have := Res.ok_inj hn
        simpa using this
      rw [dense_to_vulkan_dense env impl hex hd hl hs hn]
      exact ⟨_, rfl, rfl, rfl, rfl⟩

/-- Witness of C3: a Vulkan tensor is rejected, a CPU Float 4-d tensor is converted. -/
theorem C3_witness :
    ((dense_to_vulkan (sample_env true) sample_input).fails ∧
      (dense_to_vulkan (sample_env true) sample_input).calls = []) ∧
    ∃ v, (dense_to_vulkan (sample_env true) sample_cpu).returns v ∧ v.is_vulkan = true ∧
      v.device = Res.ok DeviceType.VULKAN ∧ v.sizes = sample_cpu.sizes :=
  ⟨(C3_dense_to_vulkan_validates (sample_env true) sample_input).1
      (Or.inl (fun h => absurd (Res.ok_inj h) (by decide))),
    (C3_dense_to_vulkan_validates (sample_env true) sample_cpu).2 rfl rfl rfl rfl rfl⟩

/-- Claim C4, amended (upsampling output shape). With variable dispatch excluded, for
a Vulkan input of sizes `[N, C, IH, IW]` and `outputSizes = [OH, OW]`, whatever the
scales, `upsample_nearest2d_vulkan` returns a Vulkan tensor of sizes
`[N, C, OH, OW]`, after the backend calls `allocateStorage` and
`upsample_nearest2d(y, x, IH, IW, OH, OW, N, C, height_scale, width_scale)` with `x`
the backend tensor of the input and `y` of sizes `[N, C, OH, OW]`. -/
theorem C4_upsample_shape (env : Env) (input : Tensor) (N C IH IW OH OW : Int)
    (scales_h scales_w : Option F64)
    (hex : env.variable_excluded_from_dispatch = true)
    (hin : input.is_vulkan = true) (hsz : input.sizes = Res.ok [N, C, IH, IW]) :
    ∃ x y out,
      vtensor_from_vulkan env input = Res.ok x ∧
      y.sizes = [N, C, OH, OW] ∧
      (upsample_nearest2d_vulkan env input [OH, OW] scales_h scales_w).calls =
        [BackendCall.allocateStorage (VTensor.create [N, C, OH, OW]),
         BackendCall.upsample_nearest2d y x IH IW OH OW N C
          (env.compute_scales_value scales_h IH OH) (env.compute_scales_value scales_w IW OW)] ∧
      (upsample_nearest2d_vulkan env input [OH, OW] scales_h scales_w).returns out ∧
      out.is_vulkan = true ∧ out.sizes = Res.ok [N, C, OH, OW] := by
  obtain ⟨impl, rfl⟩ := is_vulkan_eq input hin
  have hsz : impl.sizes = [N, C, IH, IW] := Res.ok_inj hsz
  refine ⟨impl.handle, { sizes := [N, C, OH, OW], allocated := true, data := none },
    Tensor.vulkan
      { dtype := impl.dtype
        sizes := [N, C, OH, OW]
        handle :=
          { sizes := [N, C, OH, OW]
            allocated := true
            data := some (env.gl_upsample_nearest2d
              { sizes := [N, C, OH, OW], allocated := true, data := none } impl.handle
              IH IW OH OW N C (env.compute_scales_value scales_h IH OH)
              (env.compute_scales_value scales_w IW OW)) } }, ?_, rfl, ?_, ?_, rfl, rfl⟩
  · simp [vtensor_from_vulkan_vulkan, hex]
  · simp [upsample_nearest2d_vulkan, vtensor_from_vulkan_vulkan, hex, Tensor.sizes, hsz, index,
      Tensor.options, Tensor.scalar_type, Tensor.device, Tensor.layout, empty_vulkan, check,
      TensorOptions.has_memory_format, new_with_vtensor_vulkan, VTensor.allocateStorage,
      VTensor.create, Tensor.with_vtensor]
  · simp [Res.returns, upsample_nearest2d_vulkan, vtensor_from_vulkan_vulkan, hex, Tensor.sizes,
      hsz, index, Tensor.options, Tensor.scalar_type, Tensor.device, Tensor.layout, empty_vulkan,
      check, TensorOptions.has_memory_format, new_with_vtensor_vulkan, VTensor.allocateStorage,
      VTensor.create, Tensor.with_vtensor]

/-- Counterexample to C4 as stated: on a 4-dimensional Vulkan input the call raises,
before any backend call, when variable dispatch is not excluded. -/
theorem C4_counterexample :
    sample_input.is_vulkan = true ∧ sample_input.sizes = Res.ok [1, 3, 5, 5] ∧
    (upsample_nearest2d_vulkan (sample_env false) sample_input [10, 12] none none).value =
      Except.error Error.variable_not_excluded ∧
    (upsample_nearest2d_vulkan (sample_env false) sample_input [10, 12] none none).calls = [] := by
  refine ⟨rfl, rfl, rfl, rfl⟩

/-- Witness of C4 on a `[1, 3, 5, 5]` input upsampled to 10 x 12. -/
theorem C4_witness :
    ∃ x y out,
      vtensor_from_vulkan (sample_env true) sample_input = Res.ok x ∧
      y.sizes = [1, 3, 10, 12] ∧
      (upsample_nearest2d_vulkan (sample_env true) sample_input [10, 12] none (some 4)).calls =
        [BackendCall.allocateStorage (VTensor.create [1, 3, 10, 12]),
         BackendCall.upsample_nearest2d y x 5 5 10 12 1 3
          ((sample_env true).compute_scales_value none 5 10)
          ((sample_env true).compute_scales_value (some 4) 5 12)] ∧
      (upsample_nearest2d_vulkan (sample_env true) sample_input [10, 12] none (some 4)).returns out ∧
      out.is_vulkan = true ∧ out.sizes = Res.ok [1, 3, 10, 12] :=
  C4_upsample_shape (sample_env true) sample_input 1 3 5 5 10 12 none (some 4) rfl rfl rfl

/-- Claim C5, amended (elementwise add keeps the shape of `self`). With variable
dispatch excluded and `alpha` convertible to float, for every pair of Vulkan
tensors, `vulkan_add` returns a Vulkan tensor with the sizes and the options of
`self`; the sizes of `other` play no part. -/
theorem C5_add_keeps_self_shape (env : Env) (self other : Tensor) (a : F32)
    (hex : env.variable_excluded_from_dispatch = true)
    (hself : self.is_vulkan = true) (hother : other.is_vulkan = true) :
    ∃ out, (vulkan_add env self other (Scalar.fits a)).returns out ∧
      out.is_vulkan = true ∧ out.sizes = self.sizes ∧ out.options = self.options := by
  obtain ⟨simpl, rfl⟩ := is_vulkan_eq self hself
  obtain ⟨oimpl, rfl⟩ := is_vulkan_eq other hother
  refine ⟨Tensor.vulkan
      { dtype := simpl.dtype
        sizes := simpl.sizes
        handle :=
          { sizes := simpl.sizes
            allocated := true
            data := some (env.gl_add { sizes := simpl.sizes, allocated := true, data := none }
              simpl.handle oimpl.handle a) } }, ?_, rfl, rfl, rfl⟩
  simp [Res.returns, vulkan_add, vtensor_from_vulkan_vulkan, hex, Scalar.to_float, Tensor.sizes,
    VTensor.allocateStorage, VTensor.create, Tensor.options, Tensor.scalar_type, Tensor.device,
    Tensor.layout, new_with_vtensor_vulkan]

/-- Counterexample to C5 as stated: on two Vulkan tensors the call raises when
variable dispatch is not excluded, and when `alpha.to<float>()` overflows. -/
theorem C5_counterexample :
    sample_input.is_vulkan = true ∧ sample_other.is_vulkan = true ∧
    (vulkan_add (sample_env false) sample_input sample_other (Scalar.fits 1)).value =
      Except.error Error.variable_not_excluded ∧
    (vulkan_add (sample_env true) sample_input sample_other Scalar.overflows).value =
      Except.error Error.scalar_overflow := by
  refine ⟨rfl, rfl, rfl, rfl⟩

/-- Witness of C5 on operands of different sizes. -/
theorem C5_witness :
    sample_other.sizes ≠ sample_input.sizes ∧
    ∃ out, (vulkan_add (sample_env true) sample_input sample_other (Scalar.fits 1)).returns out ∧
      out.is_vulkan = true ∧ out.sizes = sample_input.sizes ∧
      out.options = sample_input.options :=
  ⟨fun h => absurd (Res.ok_inj h) (by decide), C5_add_keeps_self_shape (sample_env true) sample_input sample_other 1 rfl rfl rfl⟩

/-- Claim C6 (`empty_vulkan`). The call fails exactly when the options carry a memory
format or the optional memory format has a value; otherwise it returns a tensor on
the Vulkan device with the requested sizes and the dtype of the options, whose
handle holds a backend tensor of the same sizes. -/
theorem C6_empty_vulkan (sizes : List Int) (options : TensorOptions)
    (optional_memory_format : Option MemoryFormat) :
    ((empty_vulkan sizes options optional_memory_format).fails ↔
      (options.has_memory_format = true ∨ optional_memory_format.isSome = true)) ∧
    (options.has_memory_format = false → optional_memory_format.isSome = false →
      ∃ impl : VulkanTensorImpl,
        empty_vulkan sizes options optional_memory_format = Res.ok (Tensor.vulkan impl) ∧
        (Tensor.vulkan impl).device = Res.ok DeviceType.VULKAN ∧
        (Tensor.vulkan impl).sizes = Res.ok sizes ∧
        (Tensor.vulkan impl).scalar_type = Res.ok options.dtype ∧
        impl.handle.sizes = sizes) := by
  refine ⟨?_, ?_⟩
  · cases h1 : options.has_memory_format <;> cases h2 : optional_memory_format.isSome <;>
      simp [empty_vulkan, check, h1, h2]
  · intro h1 h2
    refine ⟨{ dtype := options.dtype, sizes := sizes, handle := VTensor.create sizes },
      ?_, rfl, rfl, rfl, rfl⟩
    simp [empty_vulkan, check, h1, h2, new_with_vtensor_vulkan, VTensor.create]

/-- Witness of C6: a channels-last request is rejected, a plain one is served. -/
theorem C6_witness :
    (empty_vulkan [1, 3, 5, 5] sample_options (some MemoryFormat.ChannelsLast)).fails ∧
    ∃ impl : VulkanTensorImpl,
      empty_vulkan [1, 3, 5, 5] sample_options none = Res.ok (Tensor.vulkan impl) ∧
      (Tensor.vulkan impl).device = Res.ok DeviceType.VULKAN ∧
      (Tensor.vulkan impl).sizes = Res.ok [1, 3, 5, 5] ∧
      (Tensor.vulkan impl).scalar_type = Res.ok sample_options.dtype ∧
      impl.handle.sizes = [1, 3, 5, 5] :=
  ⟨(C6_empty_vulkan [1, 3, 5, 5] sample_options (some MemoryFormat.ChannelsLast)).1.mpr
      (Or.inr rfl),
    (C6_empty_vulkan [1, 3, 5, 5] sample_options none).2 rfl rfl⟩

/-- Claim C7 (unwrapping the handle). With variable dispatch excluded,
`vtensor_from_vulkan t` fails exactly when `t` is not a Vulkan tensor, and it gives
back the backend tensor wrapped by `new_with_vtensor_vulkan`; on a tensor that is
not a Vulkan tensor, `vulkan_to_dense`, `upsample_nearest2d_vulkan` and `vulkan_add`
(in either operand) fail without a backend call. -/
theorem C7_unwrap :
    (∀ (env : Env) (t : Tensor), env.variable_excluded_from_dispatch = true →
      ((vtensor_from_vulkan env t).fails ↔ t.is_vulkan = false)) ∧
    (∀ (env : Env) (vt : VTensor) (options : TensorOptions),
      env.variable_excluded_from_dispatch = true →
      vtensor_from_vulkan env (new_with_vtensor_vulkan vt options) = Res.ok vt) ∧
    (∀ (env : Env) (t : Tensor), t.is_vulkan = false →
      ((vulkan_to_dense env t).fails ∧ (vulkan_to_dense env t).calls = []) ∧
      (∀ (outputSizes : List Int) (scales_h scales_w : Option F64),
        (upsample_nearest2d_vulkan env t outputSizes scales_h scales_w).fails ∧
        (upsample_nearest2d_vulkan env t outputSizes scales_h scales_w).calls = []) ∧
      (∀ (other : Tensor) (alpha : Scalar),
        (vulkan_add env t other alpha).fails ∧ (vulkan_add env t other alpha).calls = []) ∧
      (∀ (self : Tensor) (alpha : Scalar),
        (vulkan_add env self t alpha).fails ∧ (vulkan_add env self t alpha).calls = [])) := by
  refine ⟨?_, ?_, ?_⟩
  · intro env t hex
    cases t with
    | undefined => simp [vtensor_from_vulkan_not_vulkan, Tensor.is_vulkan]
    | dense impl => simp [vtensor_from_vulkan_not_vulkan, Tensor.is_vulkan]
    | vulkan impl => simp [vtensor_from_vulkan_vulkan, hex, Tensor.is_vulkan]
  · intro env vt options hex
    simp [new_with_vtensor_vulkan, vtensor_from_vulkan_vulkan, hex]
  · intro env t ht
    have hfail := vtensor_from_vulkan_not_vulkan env t ht
    refine ⟨?_, ?_, ?_, ?_⟩
    · simp [vulkan_to_dense, hfail]
    · intro outputSizes scales_h scales_w
      simp [upsample_nearest2d_vulkan, hfail]
    · intro other alpha
      simp [vulkan_add, hfail]
    · intro self alpha
      rcases vtensor_from_vulkan_cases env self with ⟨e, he⟩ | ⟨vt, hv⟩
      · simp [vulkan_add, he]
      · simp [vulkan_add, hv, hfail]

/-- Witness of C7 on a CPU tensor and on a wrapped backend tensor. -/
theorem C7_witness :
    ((vtensor_from_vulkan (sample_env true) sample_cpu).fails ↔ sample_cpu.is_vulkan = false) ∧
    vtensor_from_vulkan (sample_env true) (new_with_vtensor_vulkan sample_vtensor sample_options) =
      Res.ok sample_vtensor ∧
    ((vulkan_to_dense (sample_env true) sample_cpu).fails ∧
      (vulkan_to_dense (sample_env true) sample_cpu).calls = []) ∧
    ((vulkan_add (sample_env true) sample_input sample_cpu (Scalar.fits 1)).fails ∧
      (vulkan_add (sample_env true) sample_input sample_cpu (Scalar.fits 1)).calls = []) :=
  ⟨C7_unwrap.1 (sample_env true) sample_cpu rfl,
    C7_unwrap.2.1 (sample_env true) sample_vtensor sample_options rfl,
    (C7_unwrap.2.2 (sample_env true) sample_cpu rfl).1,
    (C7_unwrap.2.2 (sample_env true) sample_cpu rfl).2.2.2 sample_input (Scalar.fits 1)⟩

/-- Claim C9, amended (a kernel larger than the padded input is not rejected). With
variable dispatch excluded, on a Vulkan input of sizes `[N, C, H, W]` and a weight of
sizes `[OC, C, KH, KW]`: when `SY >= 1`, the width division of line 234 is defined,
the extent `KHE` fits an `int`, `H + 2 PY < KHE` and `H + 2 PY - KHE >= -2^63`, the
call reaches the backend (`allocateStorage` of the output of sizes
`[N, OC, OH, OW]`) with nothing failing before, it returns a tensor of those sizes
when weight and bias can be read as floats, and the height `OH` is
`trunc((H + 2 PY - KHE) / SY) + 1`, at most 1, equal to 1 when
`-SY < H + 2 PY - KHE` (where the floor formula gives 0) and at most 0 when
`H + 2 PY - KHE <= -SY`. The same holds for the width, with the height division of
line 235 defined. -/
theorem C9_oversized_kernel_not_rejected (env : Env) (input weight bias : Tensor)
    (N C H W OC KH KW PY PX SY SX DY DX groups : Int)
    (hex : env.variable_excluded_from_dispatch = true)
    (hin : input.is_vulkan = true) (hisz : input.sizes = Res.ok [N, C, H, W])
    (hwsz : weight.sizes = Res.ok [OC, C, KH, KW]) :
    (1 ≤ SY → div64_defined (conv_dividend W KW DX PX) SX →
      fits_int ((KH - 1) * DY + 1) → H + 2 * PY < (KH - 1) * DY + 1 →
      -9223372036854775808 ≤ H + 2 * PY - ((KH - 1) * DY + 1) →
      ∃ OH OW rest,
        (vulkan_convolution env input weight bias [PY, PX] [SY, SX] [DY, DX] groups).calls =
          BackendCall.allocateStorage (VTensor.create [N, OC, OH, OW]) :: rest ∧
        (∀ wdata, weight.data_ptr_float = Res.ok wdata →
          (bias.defined = false ∨ ∃ bdata, bias.data_ptr_float = Res.ok bdata) →
          ∃ out,
            (vulkan_convolution env input weight bias
              [PY, PX] [SY, SX] [DY, DX] groups).returns out ∧
            out.sizes = Res.ok [N, OC, OH, OW]) ∧
        OH = Int.tdiv (H + 2 * PY - ((KH - 1) * DY + 1)) SY + 1 ∧ OH ≤ 1 ∧
        (-SY < H + 2 * PY - ((KH - 1) * DY + 1) →
          OH = 1 ∧ Int.fdiv (H + 2 * PY - ((KH - 1) * DY + 1)) SY + 1 = 0) ∧
        (H + 2 * PY - ((KH - 1) * DY + 1) ≤ -SY → OH ≤ 0)) ∧
    (1 ≤ SX → div64_defined (conv_dividend H KH DY PY) SY →
      fits_int ((KW - 1) * DX + 1) → W + 2 * PX < (KW - 1) * DX + 1 →
      -9223372036854775808 ≤ W + 2 * PX - ((KW - 1) * DX + 1) →
      ∃ OH OW rest,
        (vulkan_convolution env input weight bias [PY, PX] [SY, SX] [DY, DX] groups).calls =
          BackendCall.allocateStorage (VTensor.create [N, OC, OH, OW]) :: rest ∧
        (∀ wdata, weight.data_ptr_float = Res.ok wdata →
          (bias.defined = false ∨ ∃ bdata, bias.data_ptr_float = Res.ok bdata) →
          ∃ out,
            (vulkan_convolution env input weight bias
              [PY, PX] [SY, SX] [DY, DX] groups).returns out ∧
            out.sizes = Res.ok [N, OC, OH, OW]) ∧
        OW = Int.tdiv (W + 2 * PX - ((KW - 1) * DX + 1)) SX + 1 ∧ OW ≤ 1 ∧
        (-SX < W + 2 * PX - ((KW - 1) * DX + 1) →
          OW = 1 ∧ Int.fdiv (W + 2 * PX - ((KW - 1) * DX + 1)) SX + 1 = 0) ∧
        (W + 2 * PX - ((KW - 1) * DX + 1) ≤ -SX → OW ≤ 0)) := by
  obtain ⟨iimpl, rfl⟩ := is_vulkan_eq input hin
  have hisz : iimpl.sizes = [N, C, H, W] := Res.ok_inj hisz
  have key : ∀ (hW : div64_defined (conv_dividend W KW DX PX) SX)
      (hH : div64_defined (conv_dividend H KH DY PY) SY),
      ∃ rest,
        (vulkan_convolution env (Tensor.vulkan iimpl) weight bias
          [PY, PX] [SY, SX] [DY, DX] groups).calls =
          BackendCall.allocateStorage (VTensor.create
            [N, OC, wrap64 (Int.tdiv (conv_dividend H KH DY PY) SY + 1),
              wrap64 (Int.tdiv (conv_dividend W KW DX PX) SX + 1)]) :: rest ∧
        (∀ wdata, weight.data_ptr_float = Res.ok wdata →
          (bias.defined = false ∨ ∃ bdata, bias.data_ptr_float = Res.ok bdata) →
          ∃ out,
            (vulkan_convolution env (Tensor.vulkan iimpl) weight bias
              [PY, PX] [SY, SX] [DY, DX] groups).returns out ∧
            out.sizes = Res.ok [N, OC, wrap64 (Int.tdiv (conv_dividend H KH DY PY) SY + 1),
              wrap64 (Int.tdiv (conv_dividend W KW DX PX) SX + 1)]) := by
    intro hW hH
    have hsz := conv_output_sizes_eval N OC H W KH KW PY PX SY SX DY DX hW hH
    obtain ⟨rest, hrest⟩ := vulkan_convolution_reaches_backend env iimpl weight bias
      N C H W OC KH KW PY PX SY SX DY DX groups _ hex hisz hwsz hsz
    refine ⟨rest, hrest, ?_⟩
    intro wdata hw hb
    obtain ⟨bdata, hbd⟩ := bias_data_cases bias OC hb
    rw [vulkan_convolution_eval env iimpl weight bias N C H W OC KH KW PY PX SY SX DY DX groups
      wdata bdata _ hex hisz hwsz hsz hw hbd]
    exact ⟨_, rfl, rfl⟩
  refine ⟨?_, ?_⟩
  · intro hS hdiv hK hlt h64
    obtain ⟨rest, hcalls, hret⟩ := key hdiv (div64_defined_of_pos _ SY hS)
    obtain ⟨e1, e2, e3, e4⟩ := oversized_axis H KH DY PY SY hS hK hlt h64
    rw [e1] at hcalls hret
    exact ⟨_, _, rest, hcalls, hret, rfl, e2, e3, e4⟩
  · intro hS hdiv hK hlt h64
    obtain ⟨rest, hcalls, hret⟩ := key (div64_defined_of_pos _ SX hS) hdiv
    obtain ⟨e1, e2, e3, e4⟩ := oversized_axis W KW DX PX SX hS hK hlt h64
    rw [e1] at hcalls hret
    exact ⟨_, _, rest, hcalls, hret, rfl, e2, e3, e4⟩

/-- Counterexample to C9 as stated: on a 4-d input of sizes `[1, 3, 5, 5]` and a 4-d
weight of sizes `[2, 3, 7, 7]` with `SY = 1` and `H + 2 PY < KHE`, the call stops
before any backend call when variable dispatch is not excluded, when the input is a
CPU tensor, and when `SX = 0` (the division of line 234); and with padding
`[-2^62, 0]` the 64-bit arithmetic of line 235 wraps and the returned height is
`9223372036854775807`, not at most 1. -/
theorem C9_counterexample :
    sample_input.sizes = Res.ok [1, 3, 5, 5] ∧ sample_cpu_input.sizes = Res.ok [1, 3, 5, 5] ∧
    sample_large_weight.sizes = Res.ok [2, 3, 7, 7] ∧
    (5 : Int) + 2 * 0 < (7 - 1) * 1 + 1 ∧
    vulkan_convolution (sample_env false) sample_input sample_large_weight Tensor.undefined
      [0, 0] [1, 1] [1, 1] 1 = Res.fail Error.variable_not_excluded ∧
    vulkan_convolution (sample_env true) sample_cpu_input sample_large_weight Tensor.undefined
      [0, 0] [1, 1] [1, 1] 1 = Res.fail Error.expects_vulkan_tensor ∧
    vulkan_convolution (sample_env true) sample_input sample_large_weight Tensor.undefined
      [0, 0] [1, 0] [1, 1] 1 = Res.fail Error.division_by_zero ∧
    ((5 : Int) + 2 * (-4611686018427387904) < (7 - 1) * 1 + 1 ∧
      ∃ out,
        (vulkan_convolution (sample_env true) sample_input sample_large_weight Tensor.undefined
          [-4611686018427387904, 0] [1, 1] [1, 1] 1).returns out ∧
        out.sizes = Res.ok [1, 2, 9223372036854775807, -1]) := by
  refine ⟨rfl, rfl, rfl, by decide, rfl, rfl, rfl, by decide, _, rfl, rfl⟩

/-- Witness of C9 on a 5 x 5 input and a 7 x 7 kernel, strides `[1, 3]`. -/
theorem C9_witness :
    (∃ OH OW rest,
      (vulkan_convolution (sample_env true) sample_input sample_large_weight Tensor.undefined
        [0, 0] [1, 3] [1, 1] 1).calls =
        BackendCall.allocateStorage (VTensor.create [1, 2, OH, OW]) :: rest ∧
      (∀ wdata, sample_large_weight.data_ptr_float = Res.ok wdata →
        (Tensor.undefined.defined = false ∨
          ∃ bdata, Tensor.undefined.data_ptr_float = Res.ok bdata) →
        ∃ out,
          (vulkan_convolution (sample_env true) sample_input sample_large_weight
            Tensor.undefined [0, 0] [1, 3] [1, 1] 1).returns out ∧
          out.sizes = Res.ok [1, 2, OH, OW]) ∧
      OH = Int.tdiv (5 + 2 * 0 - ((7 - 1) * 1 + 1)) 1 + 1 ∧ OH ≤ 1 ∧
      (-1 < (5 : Int) + 2 * 0 - ((7 - 1) * 1 + 1) →
        OH = 1 ∧ Int.fdiv (5 + 2 * 0 - ((7 - 1) * 1 + 1)) 1 + 1 = 0) ∧
      ((5 : Int) + 2 * 0 - ((7 - 1) * 1 + 1) ≤ -1 → OH ≤ 0)) ∧
    (∃ OH OW rest,
      (vulkan_convolution (sample_env true) sample_input sample_large_weight Tensor.undefined
        [0, 0] [1, 3] [1, 1] 1).calls =
        BackendCall.allocateStorage (VTensor.create [1, 2, OH, OW]) :: rest ∧
      (∀ wdata, sample_large_weight.data_ptr_float = Res.ok wdata →
        (Tensor.undefined.defined = false ∨
          ∃ bdata, Tensor.undefined.data_ptr_float = Res.ok bdata) →
        ∃ out,
          (vulkan_convolution (sample_env true) sample_input sample_large_weight
            Tensor.undefined [0, 0] [1, 3] [1, 1] 1).returns out ∧
          out.sizes = Res.ok [1, 2, OH, OW]) ∧
      OW = Int.tdiv (5 + 2 * 0 - ((7 - 1) * 1 + 1)) 3 + 1 ∧ OW ≤ 1 ∧
      (-3 < (5 : Int) + 2 * 0 - ((7 - 1) * 1 + 1) →
        OW = 1 ∧ Int.fdiv (5 + 2 * 0 - ((7 - 1) * 1 + 1)) 3 + 1 = 0) ∧
      ((5 : Int) + 2 * 0 - ((7 - 1) * 1 + 1) ≤ -3 → OW ≤ 0)) :=
  ⟨(C9_oversized_kernel_not_rejected (sample_env true) sample_input sample_large_weight
      Tensor.undefined 1 3 5 5 2 7 7 0 0 1 3 1 1 1 rfl rfl rfl rfl).1
      (by decide) (by unfold div64_defined; decide) (by unfold fits_int; decide)
      (by decide) (by decide),
    (C9_oversized_kernel_not_rejected (sample_env true) sample_input sample_large_weight
      Tensor.undefined 1 3 5 5 2 7 7 0 0 1 3 1 1 1 rfl rfl rfl rfl).2
      (by decide) (by unfold div64_defined; decide) (by unfold fits_int; decide)
      (by decide) (by decide)⟩

/-- Claim C10 (the dilated kernel extent is narrowed to 32 bits). The sizes of the
tensor `vulkan_convolution` returns are those of `conv_output_sizes` (lines 232-237),
and the call stops where that computation stops; whenever both 64-bit extents fit
an `int` (as they do when `(K - 1) * D + 1` does), `conv_output_sizes` equals the
all-64-bit formula; and for `KW = 2`, `DX = 2^31` (extent `2^31 + 1`) the computed
width `2147483653` differs from the 64-bit formula, `-2147483643`. -/
theorem C10_extent_narrowing :
    (∀ (env : Env) (input weight bias : Tensor)
        (N C H W OC KH KW PY PX SY SX DY DX groups : Int) (wdata : List F32),
      env.variable_excluded_from_dispatch = true →
      input.is_vulkan = true → input.sizes = Res.ok [N, C, H, W] →
      weight.sizes = Res.ok [OC, C, KH, KW] → weight.data_ptr_float = Res.ok wdata →
      (bias.defined = false ∨ ∃ bdata, bias.data_ptr_float = Res.ok bdata) →
      (∀ sz, conv_output_sizes N OC H W KH KW PY PX SY SX DY DX = Res.ok sz →
        ∃ out,
          (vulkan_convolution env input weight bias
            [PY, PX] [SY, SX] [DY, DX] groups).returns out ∧
          out.sizes = Res.ok sz) ∧
      (∀ e, conv_output_sizes N OC H W KH KW PY PX SY SX DY DX = Res.fail e →
        vulkan_convolution env input weight bias [PY, PX] [SY, SX] [DY, DX] groups =
          Res.fail e)) ∧
    (∀ (N OC H W KH KW PY PX SY SX DY DX : Int),
      fits_int (kernel_extent_64 KH DY) → fits_int (kernel_extent_64 KW DX) →
      conv_output_sizes N OC H W KH KW PY PX SY SX DY DX =
        output_sizes_64 N OC H W KH KW PY PX SY SX DY DX) ∧
    (∀ (K D : Int), fits_int ((K - 1) * D + 1) → kernel_extent_64 K D = (K - 1) * D + 1) ∧
    (kernel_extent_64 2 2147483648 = 2147483649 ∧
      conv_output_sizes 1 1 5 5 1 2 0 0 1 1 1 2147483648 = Res.ok [1, 1, 5, 2147483653] ∧
      output_sizes_64 1 1 5 5 1 2 0 0 1 1 1 2147483648 = Res.ok [1, 1, 5, -2147483643] ∧
      (Res.ok [1, 1, 5, 2147483653] : Res (List Int)) ≠ Res.ok [1, 1, 5, -2147483643] ∧
      ∃ out,
        (vulkan_convolution (sample_env true) sample_input sample_wide_weight Tensor.undefined
          [0, 0] [1, 1] [1, 2147483648] 1).returns out ∧
        out.sizes = Res.ok [1, 1, 5, 2147483653]) := by
  refine ⟨?_, ?_, ?_, ?_⟩
  · intro env input weight bias N C H W OC KH KW PY PX SY SX DY DX groups wdata hex hin hisz
      hwsz hw hb
    obtain ⟨iimpl, rfl⟩ := is_vulkan_eq input hin
    have hisz : iimpl.sizes = [N, C, H, W] := Res.ok_inj hisz
    obtain ⟨bdata, hbd⟩ := bias_data_cases bias OC hb
    refine ⟨?_, ?_⟩
    · intro sz hsz
      rw [vulkan_convolution_eval env iimpl weight bias N C H W OC KH KW PY PX SY SX DY DX
        groups wdata bdata sz hex hisz hwsz hsz hw hbd]
      exact ⟨_, rfl, rfl⟩
    · intro e hsz
      exact vulkan_convolution_size_fail env iimpl weight bias N C H W OC KH KW PY PX SY SX
        DY DX groups e hisz hwsz hsz
  · intro N OC H W KH KW PY PX SY SX DY DX hKHE hKWE
    simp only [conv_output_sizes, output_sizes_64, to_int_of_fits _ hKHE, to_int_of_fits _ hKWE]
  · intro K D h
    exact kernel_extent_64_of_fits K D h
  · refine ⟨by decide, rfl, rfl, ?_, _, rfl, rfl⟩
    intro h
    exact absurd (Res.ok_inj h) (by decide)

/-- Witness of C10 on a 3 x 3 kernel with dilation `[1, 2]`. -/
theorem C10_witness :
    conv_output_sizes 1 2 5 5 3 3 1 0 2 1 1 2 = output_sizes_64 1 2 5 5 3 3 1 0 2 1 1 2 ∧
    ∃ out,
      (vulkan_convolution (sample_env true) sample_input sample_weight Tensor.undefined
        [1, 0] [2, 1] [1, 2] 1).returns out ∧
      out.sizes = Res.ok [1, 2, 3, 1] :=
  ⟨C10_extent_narrowing.2.1 1 2 5 5 3 3 1 0 2 1 1 2 (by unfold fits_int; decide)
      (by unfold fits_int; decide),
    (C10_extent_narrowing.1 (sample_env true) sample_input sample_weight Tensor.undefined
      1 3 5 5 2 3 3 1 0 2 1 1 2 1 (List.replicate 54 5) rfl rfl rfl rfl rfl (Or.inl rfl)).1
      [1, 2, 3, 1] rfl⟩

end VulkanAten
